import Mathlib

/-!
Verification of the ICP job-title classification engine (`app.py`).

This file shallow-embeds the classification pipeline of the repository:
text normalization (`norm`), the rule tables (owners, C-suite, departments,
hierarchy levels, subdivisions, areas, specials), the staged decision
procedure `_classify_one_internal`, the result cache (`get_cached_result`
/ `cache_result` / `classify_one`), and the HTTP-level wrapper of the
`/classify` handler.

Regular-expression matching is Python's `re` module, which is external to
the repository.  The pipeline is therefore parametrized by an abstract
matcher `M : String → String → Bool` standing for
`re.search(pattern, text, re.IGNORECASE) is not None`; general theorems
quantify over `M`.  Concrete evaluations use `re_search`, a finite
tabulation of Python `re.search` outcomes for the pattern/text pairs
reached by the concrete inputs examined here (documented at its
definition).

Unicode handling in `norm` (NFD decomposition followed by
`encode("ascii","ignore")`) is modelled per character by `charFold`:
ASCII characters are kept, precomposed Latin letters fold to their base
letter, and all other non-ASCII characters are deleted (their canonical
decomposition contains no ASCII character).
-/

namespace ICP

/-- Values of the `why` map: Python puts both strings and booleans there. -/
inductive WhyV where
  | s (v : String)
  | b (v : Bool)
deriving DecidableEq, Repr

/-- The classification record (`Out` model in `app.py`). -/
structure Rec where
  input : String
  is_icp : Bool
  department : String
  subdivision : String
  hierarchy_level : String
  role_generic : String
  role_generic_singular : String
  why : List (String × WhyV)
deriving DecidableEq, Repr, Inhabited

/-- Abstract regular-expression matcher: `M pattern text` models
`re.search(pattern, text, re.IGNORECASE) is not None`. -/
abbrev Matcher := String → String → Bool

-- ===================== String utilities (Python semantics) =====================

/-- Whitespace characters recognized by Python `str.strip()` (ASCII whitespace
plus the common Unicode space characters). -/
def pyWsChars : List Char :=
  [' ', '\t', '\n', '\r', Char.ofNat 0x0b, Char.ofNat 0x0c,
   Char.ofNat 0x1c, Char.ofNat 0x1d, Char.ofNat 0x1e, Char.ofNat 0x1f,
   Char.ofNat 0x85, Char.ofNat 0xa0, Char.ofNat 0x1680, Char.ofNat 0x2000,
   Char.ofNat 0x2001, Char.ofNat 0x2002, Char.ofNat 0x2003, Char.ofNat 0x2028,
   Char.ofNat 0x2029, Char.ofNat 0x202f, Char.ofNat 0x205f, Char.ofNat 0x3000]

def isPyWs (c : Char) : Bool := pyWsChars.contains c

/-- ASCII whitespace, matching `\s` of Python `re` on a pure-ASCII string
(Unicode mode: includes the ASCII separator control characters). -/
def isAsciiWs (c : Char) : Bool :=
  c = ' ' || c = '\t' || c = '\n' || c = '\r' || c = '\x0b' || c = '\x0c' ||
  c = Char.ofNat 0x1c || c = Char.ofNat 0x1d || c = Char.ofNat 0x1e || c = Char.ofNat 0x1f

/-- Python `str.lower()` restricted to ASCII letters plus the precomposed
Latin letters appearing in this code base. -/
def pyLower (c : Char) : Char :=
  match c with
  | 'A' => 'a' | 'B' => 'b' | 'C' => 'c' | 'D' => 'd' | 'E' => 'e' | 'F' => 'f'
  | 'G' => 'g' | 'H' => 'h' | 'I' => 'i' | 'J' => 'j' | 'K' => 'k' | 'L' => 'l'
  | 'M' => 'm' | 'N' => 'n' | 'O' => 'o' | 'P' => 'p' | 'Q' => 'q' | 'R' => 'r'
  | 'S' => 's' | 'T' => 't' | 'U' => 'u' | 'V' => 'v' | 'W' => 'w' | 'X' => 'x'
  | 'Y' => 'y' | 'Z' => 'z'
  | 'Á' => 'á' | 'É' => 'é' | 'Í' => 'í' | 'Ó' => 'ó' | 'Ú' => 'ú'
  | 'Ñ' => 'ñ' | 'Ü' => 'ü' | 'À' => 'à' | 'È' => 'è' | 'Ì' => 'ì'
  | 'Ò' => 'ò' | 'Ù' => 'ù' | 'Ç' => 'ç'
  | _ => c

def lowerStr (s : String) : String := String.mk (s.toList.map pyLower)

/-- Python `str.strip()`. -/
def pyStrip (s : String) : String :=
  String.mk (((s.toList.dropWhile isPyWs).reverse.dropWhile isPyWs).reverse)

/-- Per-character model of `unicodedata.normalize("NFD", ·)` followed by
`encode("ascii", "ignore")`: ASCII is kept, precomposed Latin letters keep
their ASCII base letter, every other non-ASCII character is deleted. -/
def charFold (c : Char) : List Char :=
  if c.toNat < 128 then [c]
  else match c with
    | 'á' => ['a'] | 'é' => ['e'] | 'í' => ['i'] | 'ó' => ['o'] | 'ú' => ['u']
    | 'ñ' => ['n'] | 'ü' => ['u'] | 'à' => ['a'] | 'è' => ['e'] | 'ì' => ['i']
    | 'ò' => ['o'] | 'ù' => ['u'] | 'ç' => ['c'] | 'ä' => ['a'] | 'ë' => ['e']
    | 'ï' => ['i'] | 'ö' => ['o'] | 'â' => ['a'] | 'ê' => ['e'] | 'î' => ['i']
    | 'ô' => ['o'] | 'û' => ['u'] | 'ã' => ['a'] | 'õ' => ['o'] | 'ý' => ['y']
    | _ => []

def foldStr (s : String) : String := String.mk (s.toList.flatMap charFold)

/-- State machine for `re.sub(r"\s+", " ", ·)` on the ASCII-folded string:
each maximal whitespace run becomes a single space.  The boolean state
records whether the previous character was whitespace. -/
def collapseAux : Bool → List Char → List Char
  | _, [] => []
  | inWs, c :: rest =>
    if isAsciiWs c then
      (if inWs then [] else [' ']) ++ collapseAux true rest
    else
      c :: collapseAux false rest

def collapse (s : String) : String := String.mk (collapseAux false s.toList)

/-- `norm` from `app.py`: strip, lower-case, NFD + ASCII-fold, collapse
whitespace runs.  (The Python function memoizes its result in `_norm_cache`;
the cache is value-transparent and is not modelled.) -/
def norm (s : String) : String :=
  if s.isEmpty then ""
  else collapse (foldStr (lowerStr (pyStrip s)))

/-- `str.split(",")` on the underlying character list. -/
def splitCommaAux : List Char → List Char → List (List Char)
  | [], acc => [acc.reverse]
  | c :: rest, acc =>
    if c = ',' then acc.reverse :: splitCommaAux rest []
    else splitCommaAux rest (c :: acc)

/-- `split_csv` from `app.py`. -/
def split_csv (s : Option String) : List String :=
  match s with
  | none => []
  | some s =>
    if s.isEmpty then []
    else (((splitCommaAux s.toList []).map String.mk).map pyStrip).filter
      (fun x => ¬ x.isEmpty)

/-- `l.split(sep, 1)` in Python: split at the first occurrence of the
(nonempty) separator sequence, if any. -/
def splitFirstSeq (sep : List Char) : List Char → Option (List Char × List Char)
  | [] => none
  | c :: rest =>
    if sep.isPrefixOf (c :: rest) then some ([], (c :: rest).drop sep.length)
    else (splitFirstSeq sep rest).map (fun pr => (c :: pr.1, pr.2))

/-- Substring occurrence (`needle in hay` for the character lists). -/
def containsSeq (sep : List Char) : List Char → Bool
  | [] => sep.isEmpty
  | c :: rest => sep.isPrefixOf (c :: rest) || containsSeq sep rest

/-- Characters escaped by Python `re.escape` (3.7+ behaviour: only special
characters are backslashed). -/
def reSpecialChars : List Char :=
  ['(', ')', '[', ']', '.', '*', '+', '?', '^', '$', '|', '\\',
   '-', '&', '~', '#', ' ', '\t', '\n', '\r', '\x0b', '\x0c']

/-- Python `re.escape`. -/
def reEscape (s : String) : String :=
  String.mk (s.toList.flatMap (fun c =>
    if reSpecialChars.contains c then ['\\', c] else [c]))

/-- `to_regex` from `app.py`: a `/…/`-wrapped item is taken verbatim as a
regular expression (no validation of any kind); anything else is escaped and
word-bounded. -/
def to_regex (items : List String) : List String :=
  items.map (fun it =>
    let l := it.toList
    if l.length ≥ 2 ∧ l.headD ' ' = '/' ∧ l.getLastD ' ' = '/' then
      String.mk (l.drop 1).dropLast
    else
      "\\b" ++ reEscape it ++ "\\b")

/-- Substring containment (`needle in hay` in Python). -/
def strContains (hay needle : String) : Bool :=
  containsSeq needle.toList hay.toList

/-- The `singular_map` dictionary of `singularize_role`, in source order.
The Python dict literal repeats a few keys; every repetition carries the
same value, so first-match lookup on this list agrees with the Python
dict (where the last binding wins). -/
def singular_map : List (String × String) := [
  ("CEOs", "CEO"),
  ("CFOs", "CFO"),
  ("CTOs", "CTO"),
  ("CMOs", "CMO"),
  ("COOs", "COO"),
  ("CIOs", "CIO"),
  ("CHROs", "CHRO"),
  ("CSOs (Sales)", "CSO (Sales)"),
  ("CROs", "CRO"),
  ("CDOs", "CDO"),
  ("CAOs", "CAO"),
  ("CQAs", "CQA"),
  ("CISOs", "CISO"),
  ("CCOs", "CCO"),
  ("propietarios", "propietario"),
  ("directores", "director"),
  ("gerentes", "gerente"),
  ("managers", "manager"),
  ("vicepresidentes", "vicepresidente"),
  ("ejecutivos", "ejecutivo"),
  ("coordinadores", "coordinador"),
  ("responsables", "responsable"),
  ("estrategas", "estratega"),
  ("gestores", "gestor"),
  ("supervisores", "supervisor"),
  ("administrativos", "administrativo"),
  ("directores generales", "director general"),
  ("directores asociados", "director asociado"),
  ("directores regionales", "director regional"),
  ("jefes de departamento", "jefe de departamento"),
  ("directores de administración", "director de administración"),
  ("gerentes de tecnología", "gerente de tecnología"),
  ("gerentes de tecnologia", "gerente de tecnologia"),
  ("gerentes de ti", "gerente de ti"),
  ("administradores de sistemas", "administrador de sistemas"),
  ("administradores de redes", "administrador de redes"),
  ("líderes de qa", "líder de qa"),
  ("project managers", "project manager"),
  ("gerentes técnicos", "gerente técnico"),
  ("directores técnicos", "director técnico"),
  ("líderes técnicos", "líder técnico"),
  ("analistas técnicos", "analista técnico"),
  ("gerentes de soporte", "gerente de soporte"),
  ("responsables de soporte al cliente", "responsable de soporte al cliente"),
  ("gerentes de marketing", "gerente de marketing"),
  ("gerentes de marca", "gerente de marca"),
  ("gerentes de contenido", "gerente de contenido"),
  ("equipos de marketing", "equipo de marketing"),
  ("directores de marketing", "director de marketing"),
  ("gerentes de ventas", "gerente de ventas"),
  ("account managers", "account manager"),
  ("account executives", "account executive"),
  ("directores de ventas", "director de ventas"),
  ("gerentes de finanzas", "gerente de finanzas"),
  ("directores financieros", "director financiero"),
  ("responsables de control de gestión", "responsable de control de gestión"),
  ("responsables contables", "responsable contable"),
  ("responsables de tesorería", "responsable de tesorería"),
  ("responsables fiscales", "responsable fiscal"),
  ("responsables de cuentas por cobrar", "responsable de cuentas por cobrar"),
  ("responsables de cuentas por pagar", "responsable de cuentas por pagar"),
  ("responsables de FP&A", "responsable de FP&A"),
  ("responsables de proyectos", "responsable de proyectos"),
  ("responsables de operaciones", "responsable de operaciones"),
  ("gerentes de recursos humanos", "gerente de recursos humanos"),
  ("gerentes de rrhh", "gerente de rrhh"),
  ("directores de rrhh", "director de rrhh"),
  ("reclutadores", "reclutador"),
  ("business partners de rr. hh.", "business partner de rr. hh."),
  ("responsables de nómina", "responsable de nómina"),
  ("responsables de compensaciones y beneficios", "responsable de compensaciones y beneficios"),
  ("responsables de capacitación", "responsable de capacitación"),
  ("gerentes legales", "gerente legal"),
  ("gerentes de operaciones", "gerente de operaciones"),
  ("responsables de supply chain", "responsable de logística"),
  ("gerentes de producto", "gerente de producto"),
  ("product managers", "product manager"),
  ("gerentes de proyectos", "gerente de proyectos"),
  ("directores de proyectos", "director de proyectos"),
  ("directores de PMO", "director de PMO"),
  ("vice presidents", "vicepresidente"),
  ("presidents", "presidente"),
  ("presidentes", "presidente"),
  ("head of departments", "jefe de departamento"),
  ("heads of department", "jefe de departamento"),
  ("PMO directors", "director de PMO"),
  ("general counsels", "general counsel"),
  ("asesores legales", "asesor legal"),
  ("responsables de contratos", "responsable de contratos"),
  ("responsables de compliance", "responsable de compliance"),
  ("responsables de privacidad", "responsable de privacidad"),
  ("responsables de logística", "responsable de logística"),
  ("responsables de fulfillment", "responsable de fulfillment"),
  ("responsables de servicio al cliente", "responsable de servicio al cliente"),
  ("responsables de seguridad e higiene", "responsable de seguridad e higiene"),
  ("directores industriales", "director industrial"),
  ("directores de operaciones", "director de operaciones"),
  ("supervisores de operaciones", "supervisor de operaciones"),
  ("directores de producción", "director de producción"),
  ("product owners", "product owner"),
  ("directores de producto", "director de producto"),
  ("responsables de diseño de producto", "responsable de diseño de producto"),
  ("investigadores de usuario", "investigador de usuario"),
  ("coordinadores de proyectos", "coordinador de proyectos"),
  ("líderes de proyectos", "líder de proyectos"),
  ("responsables de PMO", "responsable de PMO"),
  ("scrum masters", "scrum master"),
  ("seniors de PMO", "senior de PMO")]

/-- `s.endswith(suffix)`. -/
def endsWithStr (s suffix : String) : Bool :=
  suffix.toList.isSuffixOf s.toList

/-- `s[:-n]` for `n ≤ len(s)`. -/
def dropRightStr (s : String) (n : Nat) : String :=
  String.mk (s.toList.take (s.toList.length - n))

/-- `singularize_role` from `app.py`: exact dictionary lookup, then the
`"X de Y"` heuristic (split at the first `" de "` and singularize only the
first segment), then the single-word suffix heuristic. -/
def singularize_role (role_generic : String) : String :=
  if role_generic.isEmpty then ""
  else match (singular_map.find? (fun kv => kv.1 = role_generic)) with
  | some kv => kv.2
  | none =>
    match splitFirstSeq " de ".toList role_generic.toList with
    | some (first, second) =>
      let first_part := String.mk first
      let second_part := String.mk second
      let first' :=
        if endsWithStr first_part "es" ∧ first_part.toList.length > 3 then
          dropRightStr first_part 2
        else if endsWithStr first_part "s" ∧ first_part.toList.length > 2 then
          dropRightStr first_part 1
        else first_part
      first' ++ " de " ++ second_part
    | none =>
      if endsWithStr role_generic "es" ∧ role_generic.toList.length > 3 then
        dropRightStr role_generic 2
      else if endsWithStr role_generic "s" ∧ role_generic.toList.length > 2 ∧
              ¬ endsWithStr role_generic "us" then
        dropRightStr role_generic 1
      else role_generic

-- ===================== Rule tables (static data from app.py) =====================

/-- `FAST_PATTERNS`: pattern ↦ (role, department), in dict insertion order. -/
def FAST_PATTERNS : List (String × String × String) := [
  ("\\bceo\\b", "CEOs", "Ejecutivo"),
  ("\\bcto\\b", "CTOs", "Tecnologia"),
  ("\\bcfo\\b", "CFOs", "Ejecutivo"),
  ("\\bcmo\\b", "CMOs", "Marketing"),
  ("\\bcoo\\b", "COOs", "Ejecutivo"),
  ("\\bcio\\b", "CIOs", "Tecnologia"),
  ("\\bchro\\b", "CHROs", "RR.HH."),
  ("\\bcso\\b", "CSOs", "Ventas"),
  ("\\bcro\\b", "CROs", "Ventas"),
  ("^marketing\\s+manager$", "gerentes de marketing", "Marketing"),
  ("^sales\\s+manager$", "gerentes de ventas", "Ventas"),
  ("^hr\\s+manager$", "gerentes de recursos humanos", "RR.HH."),
  ("^it\\s+manager$", "gerentes de tecnologia", "Tecnologia"),
  ("^product\\s+manager$", "product managers", "Producto"),
  ("^project\\s+manager$", "project managers", "Tecnologia"),
  ("^account\\s+manager$", "account managers", "Ventas"),
  ("^brand\\s+manager$", "gerentes de marca", "Marketing"),
  ("^operations\\s+manager$", "gerentes de operaciones", "Operaciones"),
  ("^gerentes?\\s+de\\s+marketing$", "gerentes de marketing", "Marketing"),
  ("^gerentes?\\s+de\\s+ventas$", "gerentes de ventas", "Ventas"),
  ("^gerentes?\\s+de\\s+recursos\\s+humanos$", "gerentes de recursos humanos", "RR.HH."),
  ("^gerentes?\\s+de\\s+tecnolog[íi]a$", "gerentes de tecnologia", "Tecnologia"),
  ("^gerentes?\\s+de\\s+producto$", "gerentes de producto", "Producto"),
  ("^gerentes?\\s+de\\s+proyectos$", "gerentes de proyectos", "Proyectos"),
  ("^directores?\\s+de\\s+marketing$", "directores de marketing", "Marketing"),
  ("^directores?\\s+de\\s+ventas$", "directores de ventas", "Ventas"),
  ("^directores?\\s+de\\s+finanzas$", "directores de finanzas", "Finanzas"),
  ("^software\\s+engineer$", "encargados de tecnologia", "Tecnologia"),
  ("^data\\s+scientist$", "encargados de tecnologia", "Tecnologia"),
  ("^system\\s+administrator$", "administradores de sistemas", "Tecnologia"),
  ("^chief\\s+marketing$", "CMOs", "Marketing"),
  ("^marketing\\s+team$", "equipos de marketing", "Marketing"),
  ("^marketing\\s+director$", "directores de marketing", "Marketing"),
  ("^sales\\s+director$", "directores de ventas", "Ventas"),
  ("^technology\\s+director$", "directores de tecnologia", "Tecnologia")]

def OWNERS : List String := [
  "\\bfounder(s)?\\b", "\\bco[- ]?founder(s)?\\b",
  "\\bfundador(a)?s?\\b", "\\bco[- ]?fundador(a)?s?\\b",
  "\\bowner(s)?\\b", "\\bpropietari[oa]s?\\b",
  "\\bdue[nñ][oa]s?\\b",
  "\\bsoci[oa]s?\\b", "\\bpartner(s)?\\b",
  "\\bchair(man|woman)?\\b"]

def GENERAL_MANAGEMENT : List String := [
  "\\bdirector\\s+general\\b", "\\bgeneral\\s+manager\\b",
  "\\bgerente\\s+general\\b", "\\bmanaging\\s+director\\b"]

/-- `HIERARCHY_LEVELS`, in dict insertion order. -/
def HIERARCHY_LEVELS : List (String × List String) := [
  ("C-Suite", [
    "\\bceo\\b", "\\bcfo\\b", "\\bcto\\b", "\\bcmo\\b", "\\bcio\\b", "\\bcoo\\b",
    "\\bchro\\b", "\\bcdo\\b", "\\bciso\\b", "\\bcco\\b", "\\bcso\\b", "\\bcro\\b",
    "\\bcao\\b", "\\bcqa\\b", "\\bchief\\b"]),
  ("VP/Director", [
    "\\bvp\\b", "\\bvice\\s*president\\b", "\\bdirect(or|ora)\\b", "\\bhead\\s+of\\b",
    "\\bdeputy\\b", "\\bsubdirect(or|ora)\\b"]),
  ("Manager", [
    "\\bmanager\\b", "\\bgerente\\b"]),
  ("Lead", [
    "\\bjef[ea]\\b", "\\blead\\b", "\\bleader\\b", "\\bprincipal\\b",
    "\\bcoordinador(a)?\\b", "\\bcoordinator\\b", "\\bresponsable\\b"]),
  ("Specialist", [
    "\\bspecialist\\b", "\\bespecialista\\b", "\\bengineer\\b", "\\bingeniero\\b",
    "\\banalyst\\b", "\\banalista\\b", "\\bexecutive\\b", "\\bejecutiv[oa]\\b"])]

def TECH_SUBDIVISIONS : List (String × List String) := [
  ("Datos", ["\\bdata\\b", "\\banalytics\\b", "\\bbi\\b", "\\bbusiness intelligence\\b"]),
  ("Ingeniería", ["\\bengineer\\b", "\\bingeniería\\b", "\\bdevelop\\b", "\\bsoftware\\b"]),
  ("Técnico", ["\\btechnical\\b", "\\btécnico\\b", "\\btech\\b"]),
  ("Producto", ["\\bproduct\\b", "\\bproducto\\b", "\\bpm\\b"]),
  ("Infraestructura", ["\\binfrastructure\\b", "\\bcloud\\b", "\\bdevops\\b", "\\bsystem\\b"]),
  ("General", [])]

def MARKETING_SUBDIVISIONS : List (String × List String) := [
  ("Digital", ["\\bdigital\\b", "\\bonline\\b", "\\bppc\\b", "\\bsem\\b", "\\bseo\\b"]),
  ("Tradicional", ["\\btraditional\\b", "\\bprint\\b", "\\btv\\b", "\\bradio\\b"]),
  ("Contenido", ["\\bcontent\\b", "\\bcontenido\\b", "\\bbrand\\b", "\\bcopy\\b"]),
  ("Crecimiento", ["\\bgrowth\\b", "\\bcrecimiento\\b", "\\bacquisition\\b"]),
  ("Rendimiento", ["\\bperformance\\b", "\\bmetrics\\b", "\\banalytics\\b"]),
  ("Social", ["\\bsocial\\b", "\\bcommunity\\b", "\\binfluencer\\b"]),
  ("General", [])]

def SALES_SUBDIVISIONS : List (String × List String) := [
  ("Ventas Internas", ["\\binside\\b", "\\binbound\\b", "\\binternal\\b"]),
  ("Ventas de Campo", ["\\bfield\\b", "\\boutside\\b", "\\bexternal\\b"]),
  ("Canal", ["\\bchannel\\b", "\\bpartner\\b", "\\bindirect\\b"]),
  ("Cuentas Clave", ["\\bkey account\\b", "\\benterprise\\b", "\\bstrategic\\b"]),
  ("General", [])]

def FINANCE_SUBDIVISIONS : List (String × List String) := [
  ("Contabilidad", ["\\baccounting\\b", "\\bcontabilidad\\b", "\\baccountant\\b"]),
  ("Tesorería", ["\\btreasury\\b", "\\btesorería\\b", "\\bcash\\b"]),
  ("Control", ["\\bcontrol\\b", "\\bcontroller\\b", "\\baudit\\b"]),
  ("FP&A", ["\\bfp&a\\b", "\\bplanning\\b", "\\banalysis\\b", "\\bbudget\\b"]),
  ("Crédito", ["\\bcredit\\b", "\\brisk\\b", "\\bcollections\\b"]),
  ("General", [])]

def OPERATIONS_SUBDIVISIONS : List (String × List String) := [
  ("Logística", ["\\blogistics\\b", "\\bwarehouse\\b", "\\bshipping\\b"]),
  ("Cadena de Suministro", ["\\bsupply chain\\b", "\\bprocurement\\b", "\\bsourcing\\b"]),
  ("Calidad", ["\\bquality\\b", "\\bqi\\b", "\\bqc\\b"]),
  ("Servicio al Cliente", ["\\bcustomer service\\b", "\\bsupport\\b", "\\bservice\\b"]),
  ("General", [])]

def HR_SUBDIVISIONS : List (String × List String) := [
  ("Talento", ["\\btalent\\b", "\\brecruit\\b", "\\bacquisition\\b"]),
  ("Compensación", ["\\bcompensation\\b", "\\bbenefits\\b", "\\bpayroll\\b"]),
  ("Aprendizaje", ["\\blearning\\b", "\\btraining\\b", "\\bl&d\\b"]),
  ("Business Partner", ["\\bbusiness\\s+partner\\b", "\\bhrbp\\b"]),
  ("General", [])]

def PRODUCT_SUBDIVISIONS : List (String × List String) := [
  ("Gestión", ["\\bmanagement\\b", "\\bmanager\\b", "\\bowner\\b"]),
  ("Diseño", ["\\bdesign\\b", "\\bux\\b", "\\bui\\b", "\\buser\\s+experience\\b"]),
  ("Estrategia", ["\\bstrategy\\b", "\\bstrateg\\b", "\\bportfolio\\b"]),
  ("Investigación", ["\\bresearch\\b", "\\banalyst\\b", "\\binsights\\b"]),
  ("General", [])]

def PROJECTS_SUBDIVISIONS : List (String × List String) := [
  ("Gestión", ["\\bmanagement\\b", "\\bmanager\\b", "\\bpm\\b"]),
  ("Planificación", ["\\bplanning\\b", "\\bschedule\\b", "\\bcronograma\\b"]),
  ("Coordinación", ["\\bcoordination\\b", "\\bcoordinator\\b"]),
  ("Implementación", ["\\bimplementation\\b", "\\bdeployment\\b", "\\bexecution\\b"]),
  ("Metodologías", ["\\bagile\\b", "\\bscrum\\b", "\\bwaterfall\\b", "\\bpmi\\b"]),
  ("General", [])]

/-- `C_SUITE_MAP`: (patterns, label, destination department), in order. -/
def C_SUITE_MAP : List (List String × String × String) := [
  (["\\bcmo\\b", "chief marketing officer", "chief marketing"], "CMOs", "Marketing"),
  (["\\bcio\\b", "chief information officer", "chief information technology officer"], "CIOs", "Tecnologia"),
  (["\\bcto\\b", "chief technical officer", "chief technology officer",
    "chief transformation & technology officer", "ctto", "chief of technology",
    "chief product and technology officer", "technical chief"], "CTOs", "Tecnologia"),
  (["\\bciso\\b", "chief information security officer"], "CISOs", "Tecnologia"),
  (["\\bcco\\b", "chief commercial officer"], "CCOs", "Ventas"),
  (["\\bcso\\b", "chief sales officer"], "CSOs (Sales)", "Ventas"),
  (["\\bcro\\b", "chief revenue officer"], "CROs", "Ventas"),
  (["\\bceo\\b", "chief executive officer"], "CEOs", "Ejecutivo"),
  (["\\bcfo\\b", "chief financial officer"], "CFOs", "Ejecutivo"),
  (["\\bcdo\\b", "chief data officer", "chief digital officer"], "CDOs", "Ejecutivo"),
  (["\\bchro\\b", "chief human resources officer"], "CHROs", "RR. HH."),
  (["\\bcoo\\b", "chief (of )?operations|chief operating( officer)?|operations officer"], "COOs", "Ejecutivo"),
  (["\\bcao\\b", "chief administrat(ive|ion) officer"], "CAOs", "Ejecutivo"),
  (["\\bcqa\\b", "cqa"], "CQAs", "Tecnologia")]

def SENIORITY_COMMON : List String := [
  "\\bvp\\b|\\bvice ?president(e)?\\b",
  "\\bhead\\b|\\bdirect(or|ora)\\b|\\bdireccion\\b|\\bdirecci[oó]n\\b",
  "\\bmanager\\b|\\bgerente\\b|\\bjef[ea]\\b|\\bresponsable\\b|\\blead\\b|\\bprincipal\\b|\\bleader\\b",
  "\\bcoordinador(a)?\\b|\\bcoordinator\\b",
  "\\bstrategist\\b|\\bestratega\\b",
  "\\bejecutiv[oa]s?\\b|\\bexecutive\\b",
  "\\bgestor(es)?\\b",
  "\\badministrador(a)?\\b|\\badministrator\\b",
  "\\bcontroller\\b|\\bcontrolador\\b",
  "\\baccountant\\b|\\bcontador(a)?\\b|\\bcontable(s)?\\b",
  "\\bdepartment\\b|\\bdepartamento\\b|\\bdpto\\b",
  "\\bteam\\b|\\bequipo\\b",
  "\\bengineer\\b|\\bingeniero\\b",
  "\\banalyst\\b|\\banalista\\b",
  "\\bscientist\\b|\\bcient[íi]fico\\b",
  "\\bspecialist\\b|\\bespecialista\\b",
  "\\brepresentative\\b|\\brepresentante\\b",
  "\\bconsultant\\b|\\bconsultor(a)?\\b",
  "\\bplanner\\b|\\bplanificador(a)?\\b",
  "\\brecruiter\\b|\\breclutador(a)?\\b"]

def EXCLUDE_COMMON : List String := [
  "\\bjunior\\b|\\bjr\\b", "\\btrainee\\b|\\bbecari[oa]\\b|\\bintern\\b",
  "\\bassistant\\b|\\basistente\\b",
  "\\bcommunity\\b|\\bartist\\b|\\bart\\b",
  "\\bdesign\\b|\\bdise[nñ]o\\b|\\badvisor\\b",
  "\\bpaid\\b|\\bcustomer\\b"]

def PM_PATTERN : String :=
  "(?:\\bproject (manager|lead|director)\\b|\\bjefe de proyecto(s)?\\b|\\bgestor de proyecto(s)?\\b|\\bpm\\b|\\bdirect(or|ora) de proyecto(s)?\\b)"

def SOLO_TITLES : List (String × String) := [
  ("^\\s*vp\\s*$|^\\s*vice ?president(e)?\\s*$", "vicepresidentes"),
  ("^\\s*president(e)?\\s*$", "presidentes"),
  ("^\\s*director(a)?\\s*$", "directores"),
  ("^\\s*gerente\\s*$", "gerentes"),
  ("^\\s*manager\\s*$", "managers"),
  ("^\\s*ejecutiv[oa]s?\\s*$", "ejecutivos"),
  ("^\\s*administraci[óo]n\\s*$", "responsables de administración"),
  ("^\\s*administrativ[oa]s?\\s*$", "administrativos"),
  ("^\\s*head of department\\s*$", "jefes de departamento")]

def DEPT_STANDALONE : List (String × String × String) := [
  ("^\\s*(marketing|mkt)\\s*$", "Marketing", "responsables de marketing"),
  ("^\\s*(it|ti|sistemas|tecnolog[ií]a|technology|tech)\\s*$", "Tecnologia", "responsables de tecnologia"),
  ("^\\s*(ventas|sales|comercial(?:es)?)\\s*$", "Ventas", "responsables de ventas"),
  ("^\\s*(finanzas?|finance|financial|contabilidad|accounting)\\s*$", "Finanzas", "responsables de finanzas"),
  ("^\\s*(rr\\.?\\s*hh\\.?|r\\.?\\s*r\\.?\\s*h\\.?\\s*h\\.?|recursos humanos|hr|human resources|people)\\s*$",
   "RR. HH.", "responsables de recursos humanos"),
  ("^\\s*(legal|jur[ií]dico|law|legal affairs)\\s*$", "Legal", "responsables de legal"),
  ("^\\s*(operaciones|operations|ops|log[ií]stica|logistics|supply ?chain)\\s*$",
   "Operaciones", "responsables de operaciones")]

def TECH_HINTS : List String := [
  "\\b(it|ti)\\b", "\\bsistemas\\b", "\\btechnology\\b|\\btech\\b",
  "\\binformatic[ao]\\b|\\binformation\\b",
  "\\bsoftware\\b|\\bplatform\\b", "\\barquitectur[ao]?\\b|\\barchitecture\\b",
  "\\binfraestructura\\b|\\binfrastructure\\b",
  "\\bsecurity\\b|\\bseguridad\\b",
  "\\bcloud\\b|\\bnube\\b|aws|azure|\\bgcp\\b|\\bgoogle cloud\\b",
  "\\bdevops\\b", "\\bdata\\b|bi|analytics?"]

def MKT_HINTS : List String := [
  "\\bmarketing\\b", "\\bbrand(ing)?\\b|\\bmarca\\b", "\\bcontent\\b|\\bcontenid[oa]\\b",
  "\\bcomunicaciones?\\b|\\bcomms\\b|communications?",
  "\\bpublicidad\\b|\\badvertis(ing|ement|ements)?\\b|paid media",
  "\\bseo\\b|\\bsem\\b|\\bperformance\\b|\\bgrowth\\b|\\bautomation\\b|\\bemail\\b|social media|redes sociales"]

def OPS_HINTS : List String := [
  "\\boperaciones\\b|\\boperations\\b|\\bops\\b",
  "\\bindustrial\\b|\\bmanufactur\\b|\\bfabric\\b|\\bconstrucci[oó]n\\b|\\bconstruction\\b",
  "\\bproducci[oó]n\\b|\\bproduction\\b|\\bplanta\\b|\\bplant\\b",
  "\\bcalidad\\b|\\bquality\\b|\\bmantenimiento\\b|\\bmaintenance\\b"]

def GEN_SENIORITIES : List (String × String) := [
  ("(?:\\bhead\\b|\\bdirect(or|ora)\\b)", "directores"),
  ("(?:\\bvp\\b|\\bvice ?president(e)?)", "vicepresidentes"),
  ("(?:\\bmanager\\b|\\bgerente\\b)", "gerentes"),
  ("(?:\\bjef[ea]\\b|\\bprincipal\\b|\\blead\\b|\\bleader\\b)", "jefes"),
  ("(?:\\bcoordinador(a)?\\b|\\bcoordinator\\b)", "coordinadores"),
  ("\\bresponsable\\b", "responsables"),
  ("(?:\\bcontroller\\b|\\bcontrolador\\b)", "responsables de control de gestión"),
  ("(?:\\baccountant\\b|\\bcontador(a)?\\b|\\bcontable(s)?\\b)", "responsables contables"),
  ("(?:\\bstrategist\\b|\\bestratega\\b)", "estrategas"),
  ("(?:\\bejecutiv[oa]s?\\b|\\bexecutive\\b)", "ejecutivos"),
  ("(?:\\bgestor(es)?\\b)", "gestores")]

def TECH_AREAS : List (String × String) := [
  ("sistemas", "(?:\\bsystem(s)?\\b|\\b(it\\s*)?systems?\\b|sistemas?)"),
  ("redes", "(?:\\bnetwork(s)?\\b|redes?)"),
  ("infraestructura", "(?:infraestructura|infrastructure)"),
  ("implementaciones", "(?:implementation|implementaci[oó]n|deployment|despliegue)"),
  ("ingeniería", "(?:ingenier[íi]a|engineer(?:ing)?)"),
  ("it", "(?:\\bti\\b|\\bit\\b|informaci[oó]n|information)"),
  ("tecnología", "(?:tecnolog[íi]a|technology|tech|technical|tecnico)"),
  ("devops", "(?:\\bdevops\\b)"),
  ("qa", "(?:\\bqa\\b|quality assurance|tester|testing|aseguramiento de calidad|control de calidad|quality control)"),
  ("proyectos", "(?:project|proyectos|jefe de proyecto|gestor de proyecto|\\bpm\\b)"),
  ("arquitectura", "(?:arquitectur[ao]|\\barchitecture\\b|architect)"),
  ("seguridad", "(?:security|seguridad|infosec|ciberseguridad|cyber ?security)"),
  ("plataforma", "(?:platform|plataforma)"),
  ("nube", "(?:cloud|nube|aws|azure|gcp|google cloud)"),
  ("datos", "(?:data|datos|bi|business intelligence|analitica)"),
  ("soporte", "(?:support|soporte|help ?desk|service ?desk|technical ?support)")]

def MKT_AREAS : List (String × String) := [
  ("marketing", "\\bmarketing\\b"),
  ("marca", "(?:\\bbrand(ing)?\\b|\\bmarca\\b)"),
  ("contenido", "(?:\\bcontenid[oa]\\b|\\bcontent\\b)"),
  ("comunicaciones", "(?:\\bcomunicaciones?\\b|\\bcomms\\b|communications?)"),
  ("publicidad", "(?:\\bpublicidad\\b|\\badvertis(ing|ement|ements)?\\b|paid media)"),
  ("email", "\\bemail\\b"),
  ("automatización", "\\bautomation\\b|\\bmarketing automation\\b|hubspot|marketo"),
  ("inbound", "\\binbound\\b"),
  ("performance", "(?:\\bperformance\\b|growth)"),
  ("social", "(?:social media|redes sociales|community)"),
  ("seo", "(?:\\bseo\\b|search engine optimization)"),
  ("sem", "(?:\\bsem\\b|paid search|google ads)")]

def SALES_AREAS : List (String × String) := [
  ("ventas", "\\bventas\\b|\\bsales\\b"),
  ("comercial", "\\bcomercial(es)?\\b"),
  ("revenue", "\\brevenue\\b"),
  ("gtm", "\\bgo[- ]?to[- ]?market\\b|\\bgtm\\b"),
  ("bd", "\\bbusiness ?development\\b|\\bbd[rm]?\\b"),
  ("accounts", "\\baccount (manager|executive)\\b|\\bae\\b|\\bam\\b"),
  ("partner", "\\bpartner(ship|s)?\\b|alianzas|partnerships?"),
  ("presales", "\\bpre[- ]?sales?\\b|preventas"),
  ("postventa", "(?:post[- ]?sales?|postventa|customer success)")]

def FIN_AREAS : List (String × String) := [
  ("contabilidad", "(?:\\baccounting\\b|\\bcontabilidad\\b|\\baccount\\b|\\bcontador(a)?\\b|\\bcontable(s)?\\b)"),
  ("control de gestión", "(?:\\bcontroller\\b|\\bcontrolador\\b|\\bcontrol de gesti[oó]n\\b)"),
  ("finanzas", "(?:\\bfinance\\b|\\bfinancial\\b|\\bfinanzas?\\b|\\bfinanciera\\b)"),
  ("fiscalidad", "(?:\\bfiscal\\b|tax)"),
  ("tesorería", "(?:\\btreasury\\b|\\btesorer[ií]a\\b|cash management)"),
  ("ar", "(?:accounts? receivable|cuentas? por cobrar|\\bar\\b)"),
  ("ap", "(?:accounts? payable|cuentas? por pagar|\\bap\\b)"),
  ("fp&a", "(?:\\bfp&a\\b|financial planning|planning & analysis)"),
  ("inversiones", "(?:investment|inversiones|asset management|portafolio|portfolio)"),
  ("auditoría", "(?:audit(?:ing)?|auditor[ií]a|auditor)"),
  ("riesgo", "(?:risk|riesgo)")]

def HR_AREAS : List (String × String) := [
  ("rrhh", "(?:recursos humanos|human resources|\\bhr\\b|\\bpeople\\b)"),
  ("talento", "(?:talent|talento|people operations|people ops|people partner)"),
  ("reclutamiento", "(?:recruit(ing|er)?|reclutamiento|selecci[oó]n|acquisition|acquisitions?)"),
  ("onboarding", "(?:onboarding|inducci[oó]n)"),
  ("capacitacion", "(?:capacita(c|ç)[ií]on|training|learning|l&d|learning and development)"),
  ("compensaciones", "(?:compensation|benefits|compensaciones|beneficios|c&b|total rewards)"),
  ("nomina", "(?:payroll|n[oó]mina)"),
  ("relaciones laborales", "(?:labor relations|relaciones laborales)"),
  ("desempeno", "(?:performance management|desempe[ñn]o|evaluaci[oó]n de desempeño)"),
  ("cultura", "(?:culture|cultura|engagement|clima)")]

def LEGAL_AREAS : List (String × String) := [
  ("legal", "(?:legal|jur[ií]dico|law|legal affairs|asuntos legales)"),
  ("contratos", "(?:contracts?|contratos?)"),
  ("compliance", "(?:compliance|cumplimiento|regulatorio|regulatory|gobernanza|governance)"),
  ("asesoria", "(?:counsel|abogad[oa]s?|asesor(?:a)? legal|legal counsel|general counsel|gc\\b)"),
  ("propiedad intelectual", "(?:ip|propiedad intelectual|patentes|marcas|copyright)"),
  ("corporativo", "(?:corporate|societario|corporativo|m&a|fusiones|adquisiciones)"),
  ("litigios", "(?:litigation|litigios|disputes|arbitraje|arbitration)"),
  ("privacidad", "(?:privacy|privacidad|datos personales|gdpr|ccpa|data protection)")]

def OPS_AREAS : List (String × String) := [
  ("operaciones", "(?:operaciones|operations|ops\\b)"),
  ("logistica", "(?:log[íi]stica|logistics|last mile|almac[eé]n|warehouse)"),
  ("supply chain", "(?:supply ?chain|cadena de suministro|planning|s&op|procurement|compras)"),
  ("fulfillment", "(?:fulfillment|operaci[oó]n de pedidos|preparaci[oó]n de pedidos)"),
  ("servicio", "(?:servicio al cliente|customer service|soporte|support)"),
  ("calidad", "(?:quality|calidad|qa operaciones)"),
  ("h&s", "(?:seguridad e higiene|hse|ehs|health & safety|seguridad industrial)")]

def PRODUCT_AREAS : List (String × String) := [
  ("gestión de producto", "(?:product management|gestión de producto|product owner|po\\b)"),
  ("desarrollo", "(?:product development|desarrollo de producto)"),
  ("estrategia", "(?:product strategy|estrategia de producto)"),
  ("portfolio", "(?:portfolio|portafolio)"),
  ("design", "(?:product design|diseño de producto|ux|ui|user experience|user interface)"),
  ("research", "(?:user research|investigación|market research)")]

def PROJECTS_AREAS : List (String × String) := [
  ("gestión", "(?:project management|gestión de proyectos|project manager|pm\\b)"),
  ("planificación", "(?:planning|planificación|schedule|cronograma)"),
  ("coordinación", "(?:coordination|coordinación|coordinator)"),
  ("seguimiento", "(?:tracking|seguimiento|monitoring|control)"),
  ("implementación", "(?:implementation|implementación|deployment|despliegue)"),
  ("metodologías", "(?:agile|scrum|waterfall|metodologías|pmi|prince2)")]

def SPECIAL_TECH : List (String × String) := [
  ("(?:\\b(it\\s*)?systems?\\s*admin(?:istrator)?\\b|\\bsys\\s*admin\\b|\\bsysadmin\\b)", "administradores de sistemas"),
  ("(?:\\bnetwork\\s*admin(?:istrator)?\\b|\\bredes?\\s*admin(?:istrador|istradora)?\\b)", "administradores de redes"),
  ("systems?\\s*and\\s*network\\s*admin(?:istrator)?", "administradores de sistemas"),
  ("(?:\\bqa\\b|quality assurance|tester|testing|aseguramiento de calidad|control de calidad|quality control)", "líderes de qa"),
  ("(?:project|proyectos|jefe de proyecto|gestor de proyecto|\\bpm\\b)", "project managers"),
  ("\\bdevops\\b", "devops"),
  ("(?:technical\\s+(?:support|service|manager)|tech\\s+(?:support|service|manager))", "gerentes técnicos"),
  ("(?:technical\\s+director|tech\\s+director)", "directores técnicos"),
  ("(?:technical\\s+lead|tech\\s+lead)", "líderes técnicos"),
  ("(?:technical\\s+analyst|tech\\s+analyst)", "analistas técnicos"),
  ("(?:support\\s+manager)", "gerentes de soporte"),
  ("(?:customer\\s+support|help\\s+desk)", "responsables de soporte al cliente")]

def SPECIAL_MKT : List (String × String) := [
  ("\\bbrand(ing)?\\b.*\\bmanager\\b|\\bbrand manager\\b", "gerentes de marca"),
  ("\\bcontent\\b.*\\bmanager\\b|\\bcontent manager\\b", "gerentes de contenido"),
  ("\\bmarketing team\\b", "equipos de marketing")]

def SPECIAL_SALES : List (String × String) := [
  ("\\baccount manager\\b", "account managers"),
  ("\\baccount executive\\b", "account executives")]

def SPECIAL_FIN : List (String × String) := [
  ("(?:director\\s+financiero|financial\\s+director)", "directores financieros"),
  ("(?:\\bcontroller\\b|\\bcontrolador\\b|\\bcontrol de gesti[oó]n\\b)", "responsables de control de gestión"),
  ("(?:\\baccountant\\b|\\bcontador(a)?\\b|\\bcontable(s)?\\b)", "responsables contables"),
  ("(?:\\btreasury\\b|\\btesorer[ií]a\\b|cash management)", "responsables de tesorería"),
  ("(?:\\bfiscal\\b|tax)", "responsables fiscales"),
  ("(?:accounts? receivable|cuentas? por cobrar|\\bar\\b)", "responsables de cuentas por cobrar"),
  ("(?:accounts? payable|cuentas? por pagar|\\bap\\b)", "responsables de cuentas por pagar"),
  ("(?:\\bfp&a\\b|financial planning|planning & analysis)", "responsables de FP&A")]

def SPECIAL_HR : List (String × String) := [
  ("(?:director\\s+de\\s+rr\\.?\\s*hh\\.?|director\\s+de\\s+recursos\\s+humanos)", "directores de rrhh"),
  ("(?:recruit(ing|er)?|selecci[oó]n|acquisition|acquisitions?)", "reclutadores"),
  ("(?:hrbp|people partner|business partner)", "business partners de rr. hh."),
  ("(?:payroll|n[oó]mina)", "responsables de nómina"),
  ("(?:compensation|benefits|total rewards|compensaciones|beneficios)", "responsables de compensaciones y beneficios"),
  ("(?:training|learning|l&d|learning and development|capacitaci[oó]n)", "responsables de capacitación")]

def SPECIAL_LEGAL : List (String × String) := [
  ("(?:general counsel|gc\\b)", "general counsels"),
  ("(?:counsel|abogad[oa]s?|asesor(?:a)? legal)", "asesores legales"),
  ("(?:contracts?|contratos?)", "responsables de contratos"),
  ("(?:compliance|cumplimiento|regulatorio|regulatory|governance|gobernanza)", "responsables de compliance"),
  ("(?:privacy|privacidad|gdpr|ccpa|data protection)", "responsables de privacidad")]

def SPECIAL_OPS : List (String × String) := [
  ("(?:log[íi]stica|logistics|warehouse|almac[eé]n|last mile)", "responsables de logística"),
  ("(?:supply ?chain|cadena de suministro|procurement|compras|planning|s&op)", "responsables de supply chain"),
  ("(?:fulfillment|operaci[oó]n de pedidos|preparaci[oó]n de pedidos)", "responsables de fulfillment"),
  ("(?:customer service|servicio al cliente|soporte|support)", "responsables de servicio al cliente"),
  ("(?:health & safety|seguridad e higiene|hse|ehs|seguridad industrial)", "responsables de seguridad e higiene"),
  ("(?:director\\s+industrial|industrial\\s+director)", "directores industriales")]

def SPECIAL_PRODUCT : List (String × String) := [
  ("(?:product manager|pm\\b|gestor de producto)", "product managers"),
  ("(?:product owner|po\\b|propietario de producto)", "product owners"),
  ("(?:product director|director de producto)", "directores de producto"),
  ("(?:ux|ui|user experience|user interface|diseño de producto)", "responsables de diseño de producto"),
  ("(?:user research|investigación de usuario)", "investigadores de usuario")]

def SPECIAL_PROJECTS : List (String × String) := [
  ("(?:project manager|pm\\b|gestor de proyectos|jefe de proyecto)", "project managers"),
  ("(?:project director|director de proyectos)", "directores de proyectos"),
  ("(?:pmo\\s+director|director\\s+pmo|director de pmo)", "directores de PMO"),
  ("(?:project coordinator|coordinador de proyectos)", "coordinadores de proyectos"),
  ("(?:project lead|líder de proyecto)", "líderes de proyectos"),
  ("(?:pmo|project management office|oficina de proyectos)", "responsables de PMO"),
  ("(?:scrum master|agile coach)", "scrum masters"),
  ("(?:pmo\\s+senior|senior\\s+pmo)", "seniors de PMO")]

/-- Per-department configuration (`DEPARTMENTS` entries). -/
structure DeptCfg where
  must : List String
  seniority : List String
  exclude : List String
  areas : List (String × String)
  specials : List (String × String)
deriving Inhabited

/-- `DEPARTMENTS` from `app.py`, in declaration order (Marketing before
Ventas: order carries the tie-break). -/
def DEPARTMENTS : List (String × DeptCfg) := [
  ("Marketing", {
    must := [
      "\\bmarketing\\b", "\\bbrand\\b", "\\bmarket\\b",
      "\\bcontent\\b|\\bcontenido\\b",
      "\\bgrowth\\b|\\bcrecimiento\\b",
      "\\bcampaign\\b|\\bcampaña\\b",
      "\\bsocial\\b|\\bmedia\\b"],
    seniority := SENIORITY_COMMON,
    exclude := EXCLUDE_COMMON ++ ["\\btrade\\b", "\\bperformance\\b", "\\bproduct\\b", "\\bads\\b", "\\barea\\b", "\\baccount\\b"],
    areas := MKT_AREAS, specials := SPECIAL_MKT }),
  ("Tecnologia", {
    must := [
      "\\b(it|ti)\\b", "\\bsistemas\\b", "\\btechnology\\b|\\btech\\b",
      "\\binformatic[ao]\\b|\\binformation\\b",
      "\\bsoftware\\b|\\bplatform\\b", "\\barquitectur[ao]?\\b|\\barchitecture\\b",
      "\\binfraestructura\\b|\\binfrastructure\\b",
      "\\bsecurity\\b|\\bseguridad\\b",
      "\\btechnical\\b|\\btecnico\\b", "\\bengineering\\b|\\bingenier[íi]a\\b|\\bengineer\\b",
      "\\bproject\\b|\\bproyecto\\b", "\\bqa\\b|\\bquality\\b",
      "\\bde tecnolog[íi]a\\b", "\\borganizaci[oó]n\\b", "\\bde la informaci[oó]n\\b",
      "\\bde proyectos\\b",
      "\\bdata\\b|\\banalytics\\b|\\bscience\\b",
      "\\bdatabase\\b|\\bdb\\b",
      "\\bsystem\\b|\\bnetwork\\b",
      "\\bsupport\\b|\\bsoporte\\b",
      "\\bhelp ?desk\\b|\\bservice ?desk\\b"],
    seniority := SENIORITY_COMMON,
    exclude := EXCLUDE_COMMON ++ ["\\bdesarrollo ?de ?negocio\\b|\\bbusiness ?development\\b"],
    areas := TECH_AREAS, specials := SPECIAL_TECH }),
  ("Ventas", {
    must := [
      "\\bcomercial(es)?\\b", "\\bventas\\b", "\\bsales\\b",
      "\\brevenue\\b", "\\bgo[- ]?to[- ]?market\\b|\\bgtm\\b",
      "\\bbusiness ?development\\b|\\bbd[rm]?\\b",
      "\\baccount (manager|executive)\\b|\\bae\\b|\\bam\\b",
      "\\bpartner(ship|s)?\\b"],
    seniority := SENIORITY_COMMON,
    exclude := EXCLUDE_COMMON ++ ["\\bmarketing\\b"],
    areas := SALES_AREAS, specials := SPECIAL_SALES }),
  ("Finanzas", {
    must := [
      "\\bfinance\\b|\\bfinancial\\b|\\bfinanzas?\\b|\\bfinanciera\\b|\\bfinanciero\\b",
      "\\baccounting\\b|\\bcontabilidad\\b|\\baccount\\b",
      "\\bcontador(a)?\\b|\\bcontable(s)?\\b|\\binvestment\\b",
      "\\baccountant\\b",
      "\\bcontroller\\b|\\bcontrolador\\b",
      "\\bplanner\\b|\\bplanning\\b",
      "\\btreasury\\b|\\btesorería\\b",
      "\\bcredit\\b|\\bcrédito\\b"],
    seniority := SENIORITY_COMMON ++ ["\\bfiscal\\b", "\\bcontroller\\b|\\bcontrolador\\b",
      "\\badministraci[oó]n\\b|\\badministrador(a)?\\b|\\badministrativ[oa]s?\\b"],
    exclude := EXCLUDE_COMMON ++ ["\\bkey\\b"],
    areas := FIN_AREAS, specials := SPECIAL_FIN }),
  ("RR. HH.", {
    must := [
      "(?:recursos humanos|human resources|\\bhr\\b|\\bpeople\\b|talent|\\brrhh\\b|\\brr\\.?\\s*hh\\.?)",
      "\\brecruit(er|ing)?\\b|\\breclutamiento\\b",
      "\\bcompensation\\b|\\bcompensaciones\\b",
      "\\btraining\\b|\\bcapacitaci[oó]n\\b",
      "\\bpayroll\\b|\\bn[oó]mina\\b"],
    seniority := SENIORITY_COMMON,
    exclude := EXCLUDE_COMMON,
    areas := HR_AREAS, specials := SPECIAL_HR }),
  ("Legal", {
    must := ["(?:legal|jur[ií]dico|law|legal affairs|asuntos legales|compliance|contracts?)"],
    seniority := SENIORITY_COMMON,
    exclude := EXCLUDE_COMMON,
    areas := LEGAL_AREAS, specials := SPECIAL_LEGAL }),
  ("Operaciones", {
    must := ["(?:operaciones|operations|ops|log[íi]stica|logistics|supply ?chain|fulfillment|warehouse|almac[eé]n|industrial)"],
    seniority := SENIORITY_COMMON,
    exclude := EXCLUDE_COMMON,
    areas := OPS_AREAS, specials := SPECIAL_OPS }),
  ("Producto", {
    must := ["(?:product|producto|product management|gestión de producto)"],
    seniority := SENIORITY_COMMON,
    exclude := EXCLUDE_COMMON,
    areas := PRODUCT_AREAS, specials := SPECIAL_PRODUCT }),
  ("Proyectos", {
    must := ["(?:project|proyecto|project management|gestión de proyectos|pm\\b|pmo|scrum|agile)"],
    seniority := SENIORITY_COMMON,
    exclude := EXCLUDE_COMMON,
    areas := PROJECTS_AREAS, specials := SPECIAL_PROJECTS })]

-- ===================== Matching engine and pipeline =====================

/-- `any_match` from `app.py`: OR over a pattern set, short-circuiting. -/
def any_match (M : Matcher) (text : String) (patterns : List String) : Bool :=
  patterns.any (fun p => M p text)

/-- `detect_first`: first (pattern, label) pair whose pattern matches. -/
def detect_first (M : Matcher) (text : String) (pairs : List (String × String)) : Option String :=
  (pairs.find? (fun pl => M pl.1 text)).map (fun pl => pl.2)

/-- `detect_area`: first area whose pattern matches. -/
def detect_area (M : Matcher) (text : String) (areas : List (String × String)) : Option String :=
  (areas.find? (fun ap => M ap.2 text)).map (fun ap => ap.1)

/-- `seniority_label` over `GEN_SENIORITIES`. -/
def seniority_label (M : Matcher) (text : String) : Option String :=
  (GEN_SENIORITIES.find? (fun pl => M pl.1 text)).map (fun pl => pl.2)

/-- `detect_hierarchy_level`: first matching tier, default `"Specialist"`. -/
def detect_hierarchy_level (M : Matcher) (text : String) : String :=
  let tn := norm text
  ((HIERARCHY_LEVELS.find? (fun lv => lv.2.any (fun p => M p tn))).map
    (fun lv => lv.1)).getD "Specialist"

/-- The `subdivision_map` of `detect_subdivision`. -/
def subdivision_map : List (String × List (String × List String)) := [
  ("Tecnologia", TECH_SUBDIVISIONS),
  ("Marketing", MARKETING_SUBDIVISIONS),
  ("Ventas", SALES_SUBDIVISIONS),
  ("Finanzas", FINANCE_SUBDIVISIONS),
  ("Operaciones", OPERATIONS_SUBDIVISIONS),
  ("RR. HH.", HR_SUBDIVISIONS),
  ("Producto", PRODUCT_SUBDIVISIONS),
  ("Proyectos", PROJECTS_SUBDIVISIONS)]

/-- `detect_subdivision`: department-specific finer category, default
`"General"` (the `"General"` rows are skipped during iteration). -/
def detect_subdivision (M : Matcher) (text : String) (department : String) : String :=
  let tn := norm text
  match subdivision_map.find? (fun e => e.1 = department) with
  | none => "General"
  | some e =>
    ((e.2.find? (fun sv => sv.1 ≠ "General" ∧ sv.2.any (fun p => M p tn))).map
      (fun sv => sv.1)).getD "General"

/-- `label_by_area_and_seniority`: specials first, then the generic
`"{seniority} de {area-or-department}"` template.  Python's `if not sen`
and `(area or dep)` truthiness tests are modelled explicitly. -/
def label_by_area_and_seniority (M : Matcher) (dep text : String)
    (areas : List (String × String)) (specials : List (String × String)) : Option String :=
  match detect_first M text specials with
  | some sp => some sp
  | none =>
    match seniority_label M text with
    | none => none
    | some sen =>
      if sen.isEmpty then none
      else
        let area := detect_area M text areas
        let base := match area with
          | some a => if a.isEmpty then dep else a
          | none => dep
        some (sen ++ " de " ++ lowerStr base)

/-- `dynamic_role_label`: seniority-based label, else `"encargados de …"`. -/
def dynamic_role_label (M : Matcher) (dep text : String) : String :=
  match seniority_label M text with
  | some sen =>
    if sen.isEmpty then "encargados de " ++ lowerStr dep
    else sen ++ " de " ++ lowerStr dep
  | none => "encargados de " ++ lowerStr dep

/-- `create_result`: the single constructor of classification records. -/
def create_result (original : String) (is_icp : Bool)
    (department : String := "") (subdivision : String := "")
    (hierarchy_level : String := "") (role_generic : String := "")
    (why : List (String × WhyV) := []) : Rec :=
  { input := original, is_icp := is_icp, department := department,
    subdivision := subdivision, hierarchy_level := hierarchy_level,
    role_generic := role_generic,
    role_generic_singular := if role_generic.isEmpty then "" else singularize_role role_generic,
    why := why }

/-- `fast_classify`: first `FAST_PATTERNS` entry matching the lower-cased
(not normalized!) input. -/
def fast_classify (M : Matcher) (text : String) : Option (String × String) :=
  (FAST_PATTERNS.find? (fun e => M e.1 (lowerStr text))).map (fun e => e.2)

/-- The inner C-suite scan (`for pats, label, dep_fn in C_SUITE_MAP`). -/
def first_c_suite (M : Matcher) (t : String) : Option (List String × String × String) :=
  C_SUITE_MAP.find? (fun e => e.1.any (fun p => M p t))

/-- The `ejecutivo_patterns` local list of `_classify_one_internal`. -/
def ejecutivo_patterns : List (String × String) := [
  ("\\bassociate\\s+director\\b", "directores asociados"),
  ("\\bdirector\\s+of\\s+administration\\b", "directores de administración"),
  ("\\bdirector\\s+regional\\b", "directores regionales"),
  ("\\bregional\\s+director\\b", "directores regionales")]

def area_roles_pattern : String := "\\barea\\s+(director|manager|gerente)\\b"

/-- The department iteration of `_classify_one_internal` (the `for dep, cfg
in DEPARTMENTS` loop).  `ms` is the precomputed `marketing_signal`. -/
def dept_loop (M : Matcher) (original t : String) (ex : List String) (ms : Bool) :
    List (String × DeptCfg) → Option Rec
  | [] => none
  | (dep, cfg) :: rest =>
    let must_ok := any_match M t cfg.must
    let senior_ok := any_match M t cfg.seniority
    let excl_hit := any_match M t cfg.exclude || any_match M t ex
    if dep = "Ventas" ∧ must_ok ∧ ms then
      dept_loop M original t ex ms rest
    else if must_ok ∧ senior_ok ∧ ¬ excl_hit then
      let label := label_by_area_and_seniority M dep t cfg.areas cfg.specials
      let hierarchy_level := detect_hierarchy_level M original
      let subdivision := detect_subdivision M original dep
      match label with
      | some l =>
        if l.isEmpty then
          some (create_result original true dep subdivision hierarchy_level
            (dynamic_role_label M dep t)
            [("must", .b true), ("seniority", .b true), ("exclude", .b false), ("matched", .s "fallback")])
        else
          some (create_result original true dep subdivision hierarchy_level l
            [("must", .b true), ("seniority", .b true), ("exclude", .b false), ("matched", .s "area+seniority/special")])
      | none =>
        some (create_result original true dep subdivision hierarchy_level
          (dynamic_role_label M dep t)
          [("must", .b true), ("seniority", .b true), ("exclude", .b false), ("matched", .s "fallback")])
    else
      dept_loop M original t ex ms rest

/-- The tail of `_classify_one_internal`: run the department iteration and
fall through to the not-ICP `no_match` record when no department
qualifies. -/
def loop_result (M : Matcher) (original t : String) (ex : List String) (ms : Bool) : Rec :=
  match dept_loop M original t ex ms DEPARTMENTS with
  | some r => r
  | none => create_result original false "" "" "" "" [("no_match", .b true)]

/-- Stages of `_classify_one_internal` from the external-excludes check
onward (everything except the fast path), in the source's order. -/
def classify_after_fast (M : Matcher) (job_title : String) (ex : List String) : Rec :=
  let original := job_title
  let t := norm job_title
  if any_match M t ex then
    create_result original false "" "" "" "" [("excluded_by", .s "external_excludes")]
  else if any_match M t OWNERS then
    match first_c_suite M t with
    | some e =>
      create_result original true e.2.2 (detect_subdivision M original e.2.2)
        (detect_hierarchy_level M original) e.2.1 [("matched", .s (e.2.1 ++ "_over_owner"))]
    | none =>
      create_result original true "Ejecutivo" (detect_subdivision M original "Ejecutivo")
        (detect_hierarchy_level M original) "propietarios" [("matched", .s "owners")]
  else if any_match M t GENERAL_MANAGEMENT then
    create_result original true "Ejecutivo" (detect_subdivision M original "Ejecutivo")
      (detect_hierarchy_level M original) "directores" [("matched", .s "general_management")]
  else match first_c_suite M t with
  | some e =>
    create_result original true e.2.2 (detect_subdivision M original e.2.2)
      (detect_hierarchy_level M original) e.2.1 [("matched", .s e.2.1)]
  | none =>
    if M area_roles_pattern t then
      let role_label := if strContains (lowerStr t) "director" then "directores" else "gerentes"
      create_result original true "Ejecutivo" (detect_subdivision M original "Ejecutivo")
        (detect_hierarchy_level M original) role_label [("matched", .s "area_roles")]
    else match detect_first M t ejecutivo_patterns with
    | some label =>
      create_result original true "Ejecutivo" (detect_subdivision M original "Ejecutivo")
        (detect_hierarchy_level M original) label [("matched", .s "nuevos_ejecutivo_roles")]
    | none =>
      match detect_first M t SOLO_TITLES with
      | some plural_label =>
        create_result original true "Ejecutivo" (detect_subdivision M original "Ejecutivo")
          (detect_hierarchy_level M original) plural_label [("matched", .s "solo_title")]
      | none =>
        match DEPT_STANDALONE.find? (fun e => M e.1 t) with
        | some e =>
          create_result original true e.2.1 (detect_subdivision M original e.2.1)
            (detect_hierarchy_level M original) e.2.2 [("matched", .s "standalone_department")]
        | none =>
          if M PM_PATTERN t then
            let dep :=
              if any_match M t TECH_HINTS then "Tecnologia"
              else if any_match M t MKT_HINTS then "Marketing"
              else if any_match M t OPS_HINTS then "Operaciones"
              else "Tecnologia"
            let sen := match seniority_label M t with
              | some s => if s.isEmpty then "responsables" else s
              | none => "responsables"
            create_result original true dep (detect_subdivision M original dep)
              (detect_hierarchy_level M original) (sen ++ " de proyectos")
              [("matched", .s "pm_router"), ("department_routed", .s dep)]
          else
            let marketing_signal := M "\\bmarketing\\b" t
            loop_result M original t ex marketing_signal

/-- `_classify_one_internal`: fast path (only without caller excludes),
then the staged pipeline. -/
def classify_one_internal (M : Matcher) (job_title : String) (ex : List String) : Rec :=
  if ex.isEmpty then
    match fast_classify M job_title with
    | some rd =>
      create_result job_title true rd.2 (detect_subdivision M job_title rd.2)
        (detect_hierarchy_level M job_title) rd.1 [("matched", .s "fast_path")]
    | none => classify_after_fast M job_title ex
  else classify_after_fast M job_title ex

-- ===================== Result cache and entry points =====================

/-- The process-wide `_result_cache`, modelled as an insertion-ordered
association list (Python dicts preserve insertion order). -/
abbrev Cache := List (String × Rec)

def cache_max_size : Nat := 1000

/-- `get_cached_result`: lookup under `role.lower().strip()`. -/
def get_cached_result (cache : Cache) (role : String) : Option Rec :=
  (cache.find? (fun kv => kv.1 = pyStrip (lowerStr role))).map (fun kv => kv.2)

/-- Insert-or-update for an insertion-ordered association list
(`_result_cache[key] = result`). -/
def assocSet (cache : Cache) (key : String) (r : Rec) : Cache :=
  if cache.any (fun kv => kv.1 = key) then
    cache.map (fun kv => if kv.1 = key then (kv.1, r) else kv)
  else cache ++ [(key, r)]

/-- `cache_result`: FIFO eviction of the oldest entry at the cap, then
insert under `role.lower().strip()`. -/
def cache_result (cache : Cache) (role : String) (r : Rec) : Cache :=
  let key := pyStrip (lowerStr role)
  let cache := if cache.length ≥ cache_max_size then cache.tail else cache
  assocSet cache key r

/-- `classify_one`: consult the result cache only when the caller supplied
no excludes; returns the record together with the updated cache state. -/
def classify_one (cache : Cache) (M : Matcher) (job_title : String)
    (ex : List String) : Rec × Cache :=
  if ex.isEmpty then
    match get_cached_result cache job_title with
    | some r => (r, cache)
    | none =>
      let r := classify_one_internal M job_title ex
      (r, cache_result cache job_title r)
  else (classify_one_internal M job_title ex, cache)

/-- The `/classify` handler body (transport headers aside): expand the
comma-separated excludes via `to_regex`, short-circuit empty titles, then
run `classify_one`. -/
def classify_endpoint (cache : Cache) (M : Matcher) (job_title : String)
    (excludes : Option String) : Rec × Cache :=
  let external_excludes :=
    match excludes with
    | none => []
    | some s => if s.isEmpty ∨ (pyStrip s).isEmpty then [] else to_regex (split_csv (some s))
  if job_title.isEmpty ∨ (pyStrip job_title).length < 2 then
    (create_result job_title false "" "" "" "" [("empty_input", .b true)], cache)
  else classify_one cache M job_title external_excludes

-- ===================== Concrete matcher =====================

/-- Tabulated outcomes of Python `re.search(pattern, text, re.IGNORECASE)`
for the pattern/text pairs reached while classifying the concrete inputs
examined in this file (`"cso"`, `"ceo"`, `"CEO"`, `"Founder & CEO"`,
`"Marketing and Sales Manager"`, `"Brand Account Manager"`).  Only the
matching pairs are listed; every pattern/text pair not listed here that
those runs reach does not match under Python `re` (hand-checked against
the rule tables). -/
def re_search_true_pairs : List (String × String) := [
  ("\\bcso\\b", "cso"),
  ("\\bceo\\b", "ceo"),
  ("\\bceo\\b", "founder & ceo"),
  ("\\bfounder(s)?\\b", "founder & ceo"),
  ("\\bmarketing\\b", "marketing and sales manager"),
  ("\\bmanager\\b|\\bgerente\\b|\\bjef[ea]\\b|\\bresponsable\\b|\\blead\\b|\\bprincipal\\b|\\bleader\\b",
   "marketing and sales manager"),
  ("\\bmanager\\b|\\bgerente\\b|\\bjef[ea]\\b|\\bresponsable\\b|\\blead\\b|\\bprincipal\\b|\\bleader\\b",
   "brand account manager"),
  ("(?:\\bmanager\\b|\\bgerente\\b)", "marketing and sales manager"),
  ("\\bmanager\\b", "marketing and sales manager"),
  ("\\bmanager\\b", "brand account manager"),
  ("\\bbrand\\b", "brand account manager"),
  ("\\baccount\\b", "brand account manager"),
  ("\\baccount (manager|executive)\\b|\\bae\\b|\\bam\\b", "brand account manager"),
  ("\\baccount manager\\b", "brand account manager")]

/-- The concrete matcher used for closed-term evaluations. -/
def re_search : Matcher := fun p t =>
  re_search_true_pairs.any (fun pt => pt.1 = p ∧ pt.2 = t)

/-- A crude well-formedness check for regular expressions: unbalanced
parentheses make `re.compile` fail. -/
def parenBalanced (p : String) : Bool :=
  go p.toList 0
where
  go : List Char → Int → Bool
    | [], d => d = 0
    | '(' :: rest, d => go rest (d + 1)
    | ')' :: rest, d => d > 0 && go rest (d - 1)
    | '\\' :: _ :: rest, d => go rest d
    | _ :: rest, d => go rest d

-- ===================== Structural lemmas =====================

theorem data_append (a b : String) : (a ++ b).data = a.data ++ b.data := by
  obtain ⟨la⟩ := a
  obtain ⟨lb⟩ := b
  rfl

theorem str_append_ne_empty (a b : String) (ha : a.data ≠ []) : a ++ b ≠ "" := by
  intro h
  have hd := congrArg String.data h
  rw [data_append] at hd
  exact ha (List.append_eq_nil.mp hd).1

theorem sen_de_ne_empty (sen x : String) : sen ++ " de " ++ x ≠ "" := by
  apply str_append_ne_empty
  rw [data_append]
  intro hd
  exact (by decide : (" de " : String).data ≠ []) (List.append_eq_nil.mp hd).2

theorem isEmpty_false_ne (s : String) (h : s.isEmpty = false) : s ≠ "" := by
  intro he
  subst he
  exact absurd h (by decide)

/-- `dynamic_role_label` never returns the empty string (every branch
appends `" de "` or starts with `"encargados de "`). -/
theorem dynamic_role_label_ne_empty (M : Matcher) (dep t : String) :
    dynamic_role_label M dep t ≠ "" := by
  unfold dynamic_role_label
  split
  · split
    · exact str_append_ne_empty _ _ (by decide)
    · exact sen_de_ne_empty _ _
  · exact str_append_ne_empty _ _ (by decide)

/-- Everything the per-claim theorems need about the department-iteration
loop: a returned record carries the name of some department in the list,
is ICP-positive with a non-empty role label, and — when the marketing
signal is set — is never the Sales department. -/
theorem dept_loop_spec (M : Matcher) (o t : String) (ex : List String) (ms : Bool) :
    ∀ (l : List (String × DeptCfg)) (r : Rec),
      dept_loop M o t ex ms l = some r →
      ∃ dep cfg, (dep, cfg) ∈ l ∧ r.department = dep ∧ r.is_icp = true ∧
        r.role_generic ≠ "" ∧ (ms = true → dep ≠ "Ventas") := by
  intro l
  induction l with
  | nil => intro r h; simp [dept_loop] at h
  | cons e rest ih =>
    intro r h
    obtain ⟨dep, cfg⟩ := e
    unfold dept_loop at h
    dsimp only at h
    split at h
    · obtain ⟨d, c, hmem, hrest⟩ := ih r h
      exact ⟨d, c, List.mem_cons_of_mem _ hmem, hrest⟩
    · rename_i hskip
      split at h
      · rename_i hcand
        have hventas : ms = true → dep ≠ "Ventas" := by
          intro hms hdep
          exact hskip ⟨hdep, hcand.1, by simp [hms]⟩
        refine ⟨dep, cfg, List.mem_cons_self _ _, ?_⟩
        split at h
        · rename_i lbl hlbl
          split at h
          · cases h
            exact ⟨rfl, rfl, dynamic_role_label_ne_empty M dep t, hventas⟩
          · rename_i hne
            cases h
            exact ⟨rfl, rfl, isEmpty_false_ne lbl (by simpa using hne), hventas⟩
        · cases h
          exact ⟨rfl, rfl, dynamic_role_label_ne_empty M dep t, hventas⟩
      · obtain ⟨d, c, hmem, hrest⟩ := ih r h
        exact ⟨d, c, List.mem_cons_of_mem _ hmem, hrest⟩

theorem str_append_ne_empty_right (a b : String) (hb : b.data ≠ []) : a ++ b ≠ "" := by
  intro h
  have hd := congrArg String.data h
  rw [data_append] at hd
  exact hb (List.append_eq_nil.mp hd).2

theorem detect_first_mem {M : Matcher} {text : String} {pairs : List (String × String)}
    {label : String} (h : detect_first M text pairs = some label) :
    ∃ pl ∈ pairs, pl.2 = label := by
  unfold detect_first at h
  obtain ⟨pl, hfind, heq⟩ := Option.map_eq_some'.mp h
  exact ⟨pl, List.mem_of_find?_eq_some hfind, heq⟩

-- ===================== Idempotence analysis of `norm` =====================

/-- `pyLower` either fixes a character or yields one of its concrete
lower-case outputs. -/
theorem pyLower_cases (d : Char) :
    pyLower d = d ∨ pyLower d ∈
      ['a','b','c','d','e','f','g','h','i','j','k','l','m','n','o','p','q',
       'r','s','t','u','v','w','x','y','z','á','é','í','ó','ú','ñ','ü','à',
       'è','ì','ò','ù','ç'] := by
  unfold pyLower
  split
  all_goals first
    | exact Or.inr (by decide)
    | exact Or.inl rfl

/-- Characters produced by `charFold` are ASCII. -/
theorem charFold_ascii (e c : Char) (h : c ∈ charFold e) : c.toNat < 128 := by
  unfold charFold at h
  split at h
  · rename_i he
    rw [List.mem_singleton] at h
    subst h
    exact he
  · split at h
    all_goals simp only [List.mem_singleton, List.not_mem_nil] at h
    all_goals first
      | exact absurd h (fun hf => hf)
      | (subst h; decide)

/-- Characters produced by folding a `pyLower` output are `pyLower`
fixpoints: the second application of `norm` cannot lower-case anything. -/
theorem fold_lower_fix (d c : Char) (h : c ∈ charFold (pyLower d)) : pyLower c = c := by
  rcases pyLower_cases d with hd | hd
  · rw [hd] at h
    unfold charFold at h
    split at h
    · rw [List.mem_singleton] at h
      subst h
      exact hd
    · split at h
      all_goals simp only [List.mem_singleton, List.not_mem_nil] at h
      all_goals first
        | exact absurd h (fun hf => hf)
        | (subst h; decide)
  · have : ∀ e ∈ ['a','b','c','d','e','f','g','h','i','j','k','l','m','n','o',
        'p','q','r','s','t','u','v','w','x','y','z','á','é','í','ó','ú','ñ',
        'ü','à','è','ì','ò','ù','ç'], ∀ c' ∈ charFold e, pyLower c' = c' := by decide
    exact this _ hd c h

/-- Membership description of `collapseAux` output: every character is
either the collapsing space or a non-whitespace character of the input. -/
theorem collapseAux_mem (l : List Char) :
    ∀ (b : Bool) (c : Char), c ∈ collapseAux b l →
      c = ' ' ∨ (c ∈ l ∧ isAsciiWs c = false) := by
  induction l with
  | nil => intro b c h; simp [collapseAux] at h
  | cons c₀ rest ih =>
    intro b c h
    unfold collapseAux at h
    split at h
    · rw [List.mem_append] at h
      rcases h with h | h
      · left
        rcases b with _ | _
        · simpa using h
        · simp at h
      · rcases ih true c h with h' | ⟨hm, hw⟩
        · exact Or.inl h'
        · exact Or.inr ⟨List.mem_cons_of_mem _ hm, hw⟩
    · rename_i hnw
      rcases List.mem_cons.mp h with h' | h'
      · subst h'
        exact Or.inr ⟨List.mem_cons_self _ _, by simpa using hnw⟩
      · rcases ih false c h' with h'' | ⟨hm, hw⟩
        · exact Or.inl h''
        · exact Or.inr ⟨List.mem_cons_of_mem _ hm, hw⟩

/-- After a whitespace run was just collapsed, the next emitted character
is not whitespace. -/
theorem collapseAux_head_not_ws (l : List Char) :
    ∀ c, (collapseAux true l).head? = some c → isAsciiWs c = false := by
  induction l with
  | nil => intro c h; simp [collapseAux] at h
  | cons c₀ rest ih =>
    intro c h
    unfold collapseAux at h
    split at h
    · simpa using ih c (by simpa using h)
    · rename_i hnw
      simp at h
      subst h
      simpa using hnw

/-- No two adjacent whitespace characters survive `collapseAux`. -/
theorem collapseAux_chain (l : List Char) :
    ∀ b, List.Chain' (fun a c => ¬(isAsciiWs a = true ∧ isAsciiWs c = true))
      (collapseAux b l) := by
  induction l with
  | nil => intro b; simp [collapseAux]
  | cons c₀ rest ih =>
    intro b
    unfold collapseAux
    split
    · rcases b with _ | _
      · simp only [Bool.false_eq_true, if_false]
        rw [List.singleton_append, List.chain'_cons']
        refine ⟨?_, ih true⟩
        intro c hc
        rw [collapseAux_head_not_ws rest c hc]
        simp
      · simpa using ih true
    · rename_i hnw
      rw [List.chain'_cons']
      refine ⟨?_, ih false⟩
      intro c _
      simp [show isAsciiWs c₀ = false by simpa using hnw]

/-- `collapseAux` fixes a list whose whitespace is already collapsed:
every whitespace character is a single space and no two are adjacent. -/
theorem collapseAux_id (l : List Char)
    (hchain : List.Chain' (fun a c => ¬(isAsciiWs a = true ∧ isAsciiWs c = true)) l)
    (hws : ∀ c ∈ l, isAsciiWs c = true → c = ' ') :
    ∀ b, (b = true → ∀ c, l.head? = some c → isAsciiWs c = false) →
      collapseAux b l = l := by
  induction l with
  | nil => intro b _; rfl
  | cons c₀ rest ih =>
    intro b hb
    unfold collapseAux
    split
    · rename_i hw
      have hb' : b = false := by
        cases b with
        | false => rfl
        | true => exact absurd hw (by simp [hb rfl c₀ rfl])
      subst hb'
      have hc₀ : c₀ = ' ' := hws c₀ (List.mem_cons_self _ _) hw
      simp only [Bool.false_eq_true, if_false, List.singleton_append]
      rw [ih (List.chain'_cons'.mp hchain).2
        (fun c hc => hws c (List.mem_cons_of_mem _ hc)) true ?_]
      · rw [hc₀]
      · intro _ c hc
        by_contra hcw
        exact (List.chain'_cons'.mp hchain).1 c hc ⟨hw, by simpa using hcw⟩
    · rw [ih (List.chain'_cons'.mp hchain).2
        (fun c hc => hws c (List.mem_cons_of_mem _ hc)) false (by simp)]

theorem map_id_of {l : List Char} {f : Char → Char} (h : ∀ c ∈ l, f c = c) :
    l.map f = l := by
  induction l with
  | nil => rfl
  | cons c rest ih =>
    rw [List.map_cons, h c (List.mem_cons_self _ _),
      ih (fun c' hc => h c' (List.mem_cons_of_mem _ hc))]

theorem flatMap_id_of {l : List Char} (h : ∀ c ∈ l, charFold c = [c]) :
    l.flatMap charFold = l := by
  induction l with
  | nil => rfl
  | cons c rest ih =>
    rw [List.flatMap_cons, h c (List.mem_cons_self _ _),
      ih (fun c' hc => h c' (List.mem_cons_of_mem _ hc)), List.singleton_append]

theorem charFold_of_ascii (c : Char) (h : c.toNat < 128) : charFold c = [c] := by
  unfold charFold
  rw [if_pos h]

/-- The stripped list is an infix of the original. -/
theorem stripL_infix (l : List Char) :
    ((l.dropWhile isPyWs).reverse.dropWhile isPyWs).reverse <:+: l := by
  have h1 : l.dropWhile isPyWs <:+ l := List.dropWhile_suffix _
  have h2 : (l.dropWhile isPyWs).reverse.dropWhile isPyWs <:+
      (l.dropWhile isPyWs).reverse := List.dropWhile_suffix _
  have h3 : ((l.dropWhile isPyWs).reverse.dropWhile isPyWs).reverse <+:
      l.dropWhile isPyWs := by
    have := List.reverse_prefix.mpr h2
    rwa [List.reverse_reverse] at this
  exact h3.isInfix.trans h1.isInfix

/-- Core fixpoint lemma: `norm` is the identity on strings built by
collapsing a list of ASCII `pyLower`-fixpoint characters — i.e. on every
`norm` output — except for the initial strip. -/
theorem norm_fixpoint (z : List Char)
    (hz : ∀ c ∈ z, c.toNat < 128 ∧ pyLower c = c) :
    norm (String.mk (collapseAux false z)) =
      pyStrip (String.mk (collapseAux false z)) := by
  have hmem : ∀ c ∈ collapseAux false z, c = ' ' ∨ (c ∈ z ∧ isAsciiWs c = false) :=
    fun c hc => collapseAux_mem z false c hc
  have hasc : ∀ c ∈ collapseAux false z, c.toNat < 128 := by
    intro c hc
    rcases hmem c hc with h | ⟨hm, _⟩
    · subst h; decide
    · exact (hz c hm).1
  have hfix : ∀ c ∈ collapseAux false z, pyLower c = c := by
    intro c hc
    rcases hmem c hc with h | ⟨hm, _⟩
    · subst h; decide
    · exact (hz c hm).2
  have hws : ∀ c ∈ collapseAux false z, isAsciiWs c = true → c = ' ' := by
    intro c hc hcw
    rcases hmem c hc with h | ⟨_, hnw⟩
    · exact h
    · rw [hcw] at hnw; exact absurd hnw (by simp)
  have hchain := collapseAux_chain z false
  set y := collapseAux false z with hy
  by_cases hynil : y = []
  · rw [hynil]; rfl
  · have hne : (String.mk y).isEmpty = false := by
      rw [Bool.eq_false_iff]
      intro h
      exact hynil (congrArg String.data ((String.isEmpty_iff (String.mk y)).mp h))
    unfold norm
    rw [hne]
    simp only [Bool.false_eq_true, if_false]
    set w := (y.dropWhile isPyWs).reverse.dropWhile isPyWs |>.reverse with hw
    have hstrip : pyStrip (String.mk y) = String.mk w := rfl
    rw [hstrip]
    have hinf : w <:+: y := stripL_infix y
    have hsub := hinf.subset
    have hlower : lowerStr (String.mk w) = String.mk w := by
      show String.mk (w.map pyLower) = String.mk w
      rw [map_id_of (fun c hc => hfix c (hsub hc))]
    rw [hlower]
    have hfold : foldStr (String.mk w) = String.mk w := by
      show String.mk (w.flatMap charFold) = String.mk w
      rw [flatMap_id_of (fun c hc => charFold_of_ascii c (hasc c (hsub hc)))]
    rw [hfold]
    show String.mk (collapseAux false w) = String.mk w
    have hchainw : List.Chain'
        (fun a c => ¬(isAsciiWs a = true ∧ isAsciiWs c = true)) w := by
      obtain ⟨sl, tl, hst⟩ := hinf
      rw [← hst] at hchain
      exact (List.Chain'.right_of_append
        ((List.append_assoc sl w tl) ▸ hchain)).left_of_append
    rw [collapseAux_id w hchainw (fun c hc => hws c (hsub hc)) false (by simp)]

/-- The §3 output invariant: a negative record has all classification
fields empty and one of the three explanatory `why` maps. -/
def non_icp_empty (r : Rec) : Prop :=
  r.is_icp = false →
    r.department = "" ∧ r.subdivision = "" ∧ r.hierarchy_level = "" ∧
    r.role_generic = "" ∧ r.role_generic_singular = "" ∧
    (r.why = [("excluded_by", WhyV.s "external_excludes")] ∨
     r.why = [("no_match", WhyV.b true)] ∨
     r.why = [("empty_input", WhyV.b true)])

/-- The converse invariant: a positive record names a department and a
role. -/
def icp_nonempty (r : Rec) : Prop :=
  r.is_icp = true → r.department ≠ "" ∧ r.role_generic ≠ ""

theorem loop_result_non_icp (M : Matcher) (o t : String) (ex : List String) (ms : Bool) :
    non_icp_empty (loop_result M o t ex ms) := by
  unfold non_icp_empty loop_result
  cases hloop : dept_loop M o t ex ms DEPARTMENTS with
  | none => intro _; exact ⟨rfl, rfl, rfl, rfl, rfl, Or.inr (Or.inl rfl)⟩
  | some r =>
    intro h
    obtain ⟨dep, cfg, hmem, hdep, hicp, hrole, hms⟩ :=
      dept_loop_spec M o t ex ms DEPARTMENTS r hloop
    exact absurd (hicp.symm.trans h) (by decide)

theorem loop_result_icp_nonempty (M : Matcher) (o t : String) (ex : List String) (ms : Bool) :
    icp_nonempty (loop_result M o t ex ms) := by
  unfold icp_nonempty loop_result
  cases hloop : dept_loop M o t ex ms DEPARTMENTS with
  | none => intro h; simp [create_result] at h
  | some r =>
    intro _
    obtain ⟨dep, cfg, hmem, hdep, hicp, hrole, hms⟩ :=
      dept_loop_spec M o t ex ms DEPARTMENTS r hloop
    have hall : ∀ x ∈ DEPARTMENTS, x.1 ≠ "" := by decide
    exact ⟨hdep ▸ hall ⟨dep, cfg⟩ hmem, hrole⟩

theorem classify_after_fast_non_icp (M : Matcher) (t : String) (ex : List String) :
    non_icp_empty (classify_after_fast M t ex) := by
  unfold classify_after_fast
  dsimp only
  repeat' split
  all_goals unfold non_icp_empty
  all_goals intro h
  all_goals try simp only [create_result] at h ⊢
  all_goals
    first
    | exact absurd h (by decide)
    | exact ⟨rfl, rfl, rfl, rfl, rfl, Or.inl rfl⟩
    | exact ⟨rfl, rfl, rfl, rfl, rfl, Or.inr (Or.inl rfl)⟩
    | exact ⟨trivial, trivial, trivial, trivial, rfl, Or.inl trivial⟩
    | exact ⟨trivial, trivial, trivial, trivial, rfl, Or.inr (Or.inl trivial)⟩
    | exact loop_result_non_icp _ _ _ _ _ h

theorem classify_after_fast_icp_nonempty (M : Matcher) (t : String) (ex : List String) :
    icp_nonempty (classify_after_fast M t ex) := by
  unfold classify_after_fast
  dsimp only
  repeat' split
  all_goals unfold icp_nonempty
  all_goals intro h
  all_goals try simp only [create_result] at h ⊢
  all_goals
    first
    | exact absurd h (by decide)
    | exact ⟨by decide, by decide⟩
    | exact ⟨by decide, str_append_ne_empty_right _ _ (by decide)⟩
    | (rename_i e he
       have hmem := List.mem_of_find?_eq_some (show C_SUITE_MAP.find? _ = some e from he)
       have hall : ∀ x ∈ C_SUITE_MAP, x.2.2 ≠ "" ∧ x.2.1 ≠ "" := by decide
       exact (hall e hmem))
    | (rename_i lbl hlbl
       obtain ⟨pl, hmem, heq⟩ := detect_first_mem hlbl
       subst heq
       refine ⟨by decide, ?_⟩
       have hall : ∀ x ∈ ejecutivo_patterns ++ SOLO_TITLES, x.2 ≠ "" := by decide
       first
       | exact hall pl (List.mem_append_left _ hmem)
       | exact hall pl (List.mem_append_right _ hmem))
    | (rename_i e he
       have hmem := List.mem_of_find?_eq_some (show DEPT_STANDALONE.find? _ = some e from he)
       have hall : ∀ x ∈ DEPT_STANDALONE, x.2.1 ≠ "" ∧ x.2.2 ≠ "" := by decide
       exact (hall e hmem))
    | exact loop_result_icp_nonempty _ _ _ _ _ h

-- ===================== Claim theorems =====================

/-- C6: for every record produced by the pipeline (`_classify_one_internal`
for any matcher/title/excludes, and the `/classify` handler against any
cache whose entries satisfy the invariant), `is_icp = false` implies that
`department`, `subdivision`, `hierarchy_level`, `role_generic` and
`role_generic_singular` are all empty and `why` is exactly one of the
`excluded_by` / `no_match` / `empty_input` singleton maps. -/
theorem C6_non_icp_fields_empty :
    (∀ (M : Matcher) (t : String) (ex : List String),
      non_icp_empty (classify_one_internal M t ex)) ∧
    (∀ (c : Cache) (M : Matcher) (t : String) (exs : Option String),
      (∀ kv ∈ c, non_icp_empty kv.2) →
      non_icp_empty (classify_endpoint c M t exs).1) := by
  have hint : ∀ (M : Matcher) (t : String) (ex : List String),
      non_icp_empty (classify_one_internal M t ex) := by
    intro M t ex
    unfold classify_one_internal
    split
    · split
      · intro h
        simp [create_result] at h
      · exact classify_after_fast_non_icp M t ex
    · exact classify_after_fast_non_icp M t ex
  refine ⟨hint, ?_⟩
  intro c M t exs hc
  unfold classify_endpoint
  dsimp only
  split
  · intro _
    exact ⟨rfl, rfl, rfl, rfl, rfl, Or.inr (Or.inr rfl)⟩
  · unfold classify_one
    dsimp only
    split
    · split
      · rename_i r hr
        unfold get_cached_result at hr
        obtain ⟨kv, hfind, hkv⟩ := Option.map_eq_some'.mp hr
        exact hkv ▸ hc kv (List.mem_of_find?_eq_some hfind)
      · exact hint M t _
    · exact hint M t _

/-- Witness for `C6_non_icp_fields_empty`: the `/classify` handler on the
too-short title `"x"` with an empty cache returns the not-ICP
`empty_input` record with all classification fields empty. -/
theorem C6_non_icp_fields_empty_witness :
    (classify_endpoint [] re_search "x" none).1.department = "" ∧
    (classify_endpoint [] re_search "x" none).1.subdivision = "" ∧
    (classify_endpoint [] re_search "x" none).1.hierarchy_level = "" ∧
    (classify_endpoint [] re_search "x" none).1.role_generic = "" ∧
    (classify_endpoint [] re_search "x" none).1.role_generic_singular = "" ∧
    ((classify_endpoint [] re_search "x" none).1.why =
        [("excluded_by", WhyV.s "external_excludes")] ∨
     (classify_endpoint [] re_search "x" none).1.why = [("no_match", WhyV.b true)] ∨
     (classify_endpoint [] re_search "x" none).1.why = [("empty_input", WhyV.b true)]) :=
  C6_non_icp_fields_empty.2 [] re_search "x" none (by simp) rfl

/-- C10: the converse invariant holds: every record produced by the
pipeline with `is_icp = true` carries a non-empty department and a
non-empty generic role label (every positive stage supplies both). -/
theorem C10_icp_fields_nonempty :
    (∀ (M : Matcher) (t : String) (ex : List String),
      icp_nonempty (classify_one_internal M t ex)) ∧
    (∀ (c : Cache) (M : Matcher) (t : String) (exs : Option String),
      (∀ kv ∈ c, icp_nonempty kv.2) →
      icp_nonempty (classify_endpoint c M t exs).1) := by
  have hint : ∀ (M : Matcher) (t : String) (ex : List String),
      icp_nonempty (classify_one_internal M t ex) := by
    intro M t ex
    unfold classify_one_internal
    split
    · split
      · rename_i rd hfast
        intro _
        unfold fast_classify at hfast
        obtain ⟨e, hfind, he⟩ := Option.map_eq_some'.mp hfast
        have hmem := List.mem_of_find?_eq_some hfind
        have hall : ∀ x ∈ FAST_PATTERNS, x.2.1 ≠ "" ∧ x.2.2 ≠ "" := by decide
        exact ⟨by exact he ▸ (hall e hmem).2, by exact he ▸ (hall e hmem).1⟩
      · exact classify_after_fast_icp_nonempty M t ex
    · exact classify_after_fast_icp_nonempty M t ex
  refine ⟨hint, ?_⟩
  intro c M t exs hc
  unfold classify_endpoint
  dsimp only
  split
  · intro h
    simp [create_result] at h
  · unfold classify_one
    dsimp only
    split
    · split
      · rename_i r hr
        unfold get_cached_result at hr
        obtain ⟨kv, hfind, hkv⟩ := Option.map_eq_some'.mp hr
        exact hkv ▸ hc kv (List.mem_of_find?_eq_some hfind)
      · exact hint M t _
    · exact hint M t _

/-- Witness for `C10_icp_fields_nonempty` at the ICP-positive title
`"cso"`. -/
theorem C10_icp_fields_nonempty_witness :
    (classify_one_internal re_search "cso" []).department ≠ "" ∧
    (classify_one_internal re_search "cso" []).role_generic ≠ "" :=
  C10_icp_fields_nonempty.1 re_search "cso" [] rfl

/-- C3 counterexample: the tie-break tests only the literal word pattern
`\bmarketing\b`, not every Marketing `must` pattern.  `"Brand Account
Manager"` matches the Marketing must pattern `\bbrand\b` (Marketing is then
knocked out by its own `\baccount\b` exclude), yet the title is classified
into department `"Ventas"`. -/
theorem C3_counterexample :
    (DEPARTMENTS.headD ("", default)).1 = "Marketing" ∧
    "\\bbrand\\b" ∈ (DEPARTMENTS.headD ("", default)).2.must ∧
    re_search "\\bbrand\\b" (norm "Brand Account Manager") = true ∧
    (classify_one [] re_search "Brand Account Manager" []).1.department = "Ventas" ∧
    (classify_one [] re_search "Brand Account Manager" []).1.is_icp = true := by
  refine ⟨rfl, by decide, rfl, ?_, rfl⟩
  decide

/-- C3 amended: in the department iteration, Sales is skipped whenever the
*specific* `\bmarketing\b` signal holds (the code's `marketing_signal`,
passed here as the loop's `ms` flag), so no title containing the word
"marketing" is classified as `"Ventas"` by that stage; in particular
`"Marketing and Sales Manager"` resolves to department `"Marketing"`.
(Titles matching only *other* Marketing must patterns, e.g. `\bbrand\b`,
can still land in Sales — see the counterexample.) -/
theorem C3_amended_marketing_over_sales :
    (∀ (M : Matcher) (o t : String) (ex : List String) (r : Rec),
      dept_loop M o t ex true DEPARTMENTS = some r → r.department ≠ "Ventas") ∧
    (classify_one [] re_search "Marketing and Sales Manager" []).1.department = "Marketing" ∧
    (classify_one [] re_search "Marketing and Sales Manager" []).1.role_generic =
      "gerentes de marketing" := by
  refine ⟨?_, by decide, by decide⟩
  intro M o t ex r h
  obtain ⟨dep, cfg, _, hdep, _, _, hventas⟩ := dept_loop_spec M o t ex true DEPARTMENTS r h
  rw [hdep]
  exact hventas rfl

/-- Witness for `C3_amended_marketing_over_sales`: the department loop on
`"Marketing and Sales Manager"` (marketing signal set) returns a record,
and that record's department is not `"Ventas"`. -/
theorem C3_amended_marketing_over_sales_witness :
    ((dept_loop re_search "Marketing and Sales Manager"
        (norm "Marketing and Sales Manager") [] true DEPARTMENTS).getD default).department ≠
      "Ventas" :=
  C3_amended_marketing_over_sales.1 re_search "Marketing and Sales Manager"
    (norm "Marketing and Sales Manager") [] _ (by decide)

/-- C7: owner/C-suite precedence.  Whenever the owners stage fires (an
owner/founder/partner pattern matches the normalized title, caller excludes
do not) and some `C_SUITE_MAP` entry also matches, `classify_after_fast`
returns that (first matching) entry's label and destination department —
never the generic `"propietarios"` label.  Concretely,
`classify_one("Founder & CEO", [])` resolves to role `"CEOs"`, department
`"Ejecutivo"`. -/
theorem C7_owner_csuite_precedence :
    (∀ (M : Matcher) (t : String) (ex : List String) (e : List String × String × String),
      any_match M (norm t) ex = false →
      any_match M (norm t) OWNERS = true →
      first_c_suite M (norm t) = some e →
      classify_after_fast M t ex =
        create_result t true e.2.2 (detect_subdivision M t e.2.2)
          (detect_hierarchy_level M t) e.2.1
          [("matched", WhyV.s (e.2.1 ++ "_over_owner"))] ∧
      e.2.1 ≠ "propietarios") ∧
    (classify_one [] re_search "Founder & CEO" []).1.role_generic = "CEOs" ∧
    (classify_one [] re_search "Founder & CEO" []).1.department = "Ejecutivo" := by
  refine ⟨?_, rfl, rfl⟩
  intro M t ex e hex how hcs
  constructor
  · simp [classify_after_fast, hex, how, hcs]
  · have hmem : e ∈ C_SUITE_MAP := List.mem_of_find?_eq_some hcs
    have hall : ∀ x ∈ C_SUITE_MAP, x.2.1 ≠ "propietarios" := by decide
    exact hall e hmem

/-- Witness for `C7_owner_csuite_precedence` at `"Founder & CEO"` with no
excludes: the owners stage defers to the first matching C-suite entry
(`CEOs`, routed to `Ejecutivo`). -/
theorem C7_owner_csuite_precedence_witness :
    classify_after_fast re_search "Founder & CEO" [] =
      create_result "Founder & CEO" true "Ejecutivo"
        (detect_subdivision re_search "Founder & CEO" "Ejecutivo")
        (detect_hierarchy_level re_search "Founder & CEO") "CEOs"
        [("matched", WhyV.s "CEOs_over_owner")] ∧
    "CEOs" ≠ "propietarios" :=
  C7_owner_csuite_precedence.1 re_search "Founder & CEO" []
    (["\\bceo\\b", "chief executive officer"], "CEOs", "Ejecutivo")
    rfl (by decide) (by decide)

/-- C1: the fast-path table does NOT reproduce the full ordered pipeline on
all of its covered inputs.  On the title `"cso"` (no caller excludes) the
fast path fires and returns role `"CSOs"`, while the pipeline without the
fast-path stage reaches the C-suite stage and returns the `C_SUITE_MAP`
label `"CSOs (Sales)"`: the two records differ in `role_generic`. -/
theorem C1_fast_path_divergence :
    (classify_one_internal re_search "cso" []).role_generic = "CSOs" ∧
    (classify_one_internal re_search "cso" []).why = [("matched", WhyV.s "fast_path")] ∧
    (classify_after_fast re_search "cso" []).role_generic = "CSOs (Sales)" ∧
    (classify_one_internal re_search "cso" []).role_generic ≠
      (classify_after_fast re_search "cso" []).role_generic ∧
    (classify_one_internal re_search "cso" []).department =
      (classify_after_fast re_search "cso" []).department := by
  refine ⟨rfl, rfl, rfl, ?_, rfl⟩
  decide

/-- C9: `to_regex` performs no validation whatsoever: the caller-supplied
exclude `"/(/"` is passed through as the bare pattern `"("`, which is not a
compilable regular expression (unbalanced parenthesis), and that pattern is
handed to the regex engine only *inside* the classification pipeline (the
exclude-matching stage), not at the exclude-expansion step. -/
theorem C9_no_regex_validation :
    to_regex (split_csv (some "/(/")) = ["("] ∧
    parenBalanced "(" = false ∧
    (classify_one [] (fun p _ => p = "(") "Engineer"
        (to_regex (split_csv (some "/(/")))).1.why =
      [("excluded_by", WhyV.s "external_excludes")] := by
  refine ⟨rfl, rfl, ?_⟩
  decide

/-- C8 amended: `norm` is idempotent up to stripping the boundary
whitespace that ASCII-folding can expose: for every input `s`,
`norm (norm s) = pyStrip (norm s)` (so `norm` is idempotent exactly on
inputs whose normal form has no boundary whitespace, which includes every
ASCII input), and empty input yields the empty string. -/
theorem C8_norm_strip_idempotent :
    (∀ s : String, norm (norm s) = pyStrip (norm s)) ∧ norm "" = "" := by
  refine ⟨?_, rfl⟩
  intro s
  by_cases hs : s.isEmpty
  · have h0 : norm s = "" := by simp [norm, hs]
    rw [h0]
    rfl
  · have hs' : s.isEmpty = false := by simpa using hs
    have hz : ∀ c ∈ (foldStr (lowerStr (pyStrip s))).data,
        c.toNat < 128 ∧ pyLower c = c := by
      intro c hc
      obtain ⟨e, he, hce⟩ := List.mem_flatMap.mp hc
      obtain ⟨d, _, hde⟩ := List.mem_map.mp he
      subst hde
      exact ⟨charFold_ascii _ c hce, fold_lower_fix d c hce⟩
    have hnorm : norm s =
        String.mk (collapseAux false (foldStr (lowerStr (pyStrip s))).data) := by
      simp [norm, hs', collapse]
    rw [hnorm]
    exact norm_fixpoint _ hz

/-- C8 counterexample: `norm` is not idempotent.  ASCII-folding deletes
`'€'` (its canonical decomposition contains no ASCII character), exposing a
trailing space that the first application does not strip:
`norm "a €" = "a "` but `norm (norm "a €") = "a"`. -/
theorem C8_counterexample :
    norm (norm "a €") ≠ norm "a €" ∧ norm "a €" = "a " := by
  refine ⟨?_, rfl⟩
  decide

/-- C5 amended: the result cache is keyed by the *lower-cased, stripped*
input (`role.lower().strip()`), not by the raw string: a lookup returns a
record stored under a different raw title exactly when the two titles agree
after lower-casing and stripping. -/
theorem C5_cache_key_lower_strip (t₁ t₂ : String) (r : Rec) :
    get_cached_result (cache_result [] t₁ r) t₂ =
      (if pyStrip (lowerStr t₂) = pyStrip (lowerStr t₁) then some r else none) := by
  by_cases h : pyStrip (lowerStr t₂) = pyStrip (lowerStr t₁)
  · simp [get_cached_result, cache_result, assocSet, cache_max_size, List.find?, h]
  · have h' : ¬ pyStrip (lowerStr t₁) = pyStrip (lowerStr t₂) := fun hh => h hh.symm
    simp [get_cached_result, cache_result, assocSet, cache_max_size, List.find?, h, h']

/-- Witness for `C5_cache_key_lower_strip` at concrete titles: `"CEO"`
collides with the `"ceo"` entry; `"cto"` does not. -/
theorem C5_cache_key_lower_strip_witness :
    get_cached_result (cache_result [] "ceo" default) "CEO" = some default ∧
    get_cached_result (cache_result [] "ceo" default) "cto" = none := by
  constructor
  · rw [C5_cache_key_lower_strip]
    decide
  · rw [C5_cache_key_lower_strip]
    decide

/-- C5 counterexample: `"CEO"` and `"ceo"` do NOT occupy distinct cache
entries: the record cached for `"ceo"` is returned by a lookup with
`"CEO"`. -/
theorem C5_counterexample :
    get_cached_result (cache_result [] "ceo" (classify_one_internal re_search "ceo" [])) "CEO" =
      some (classify_one_internal re_search "ceo" []) := by
  decide

/-- C4 amended: `classify_one` is a pure function of (title, excludes) and
the cache state; its output is independent of the cache whenever the cache
is bypassed (nonempty excludes) or misses (no record under the lower-cased,
stripped title), in which case it returns the pure
`classify_one_internal` result. -/
theorem C4_purity_modulo_cache :
    (∀ (c₁ c₂ : Cache) (M : Matcher) (t : String) (ex : List String),
      ex ≠ [] → (classify_one c₁ M t ex).1 = (classify_one c₂ M t ex).1) ∧
    (∀ (c : Cache) (M : Matcher) (t : String),
      get_cached_result c t = none →
      (classify_one c M t []).1 = classify_one_internal M t []) := by
  constructor
  · intro c₁ c₂ M t ex hex
    have : ex.isEmpty = false := by
      cases ex with
      | nil => exact absurd rfl hex
      | cons a l => rfl
    simp [classify_one, this]
  · intro c M t hmiss
    simp [classify_one, hmiss]

/-- Witness for `C4_purity_modulo_cache` at concrete inputs. -/
theorem C4_purity_modulo_cache_witness :
    (classify_one [] re_search "ceo" ["\\bxyz\\b"]).1 =
      (classify_one [("zz", default)] re_search "ceo" ["\\bxyz\\b"]).1 ∧
    (classify_one [] re_search "ceo" []).1 = classify_one_internal re_search "ceo" [] :=
  ⟨C4_purity_modulo_cache.1 [] [("zz", default)] re_search "ceo" ["\\bxyz\\b"] (by simp),
   C4_purity_modulo_cache.2 [] re_search "ceo" rfl⟩

/-- C4 counterexample: `classify_one` is NOT independent of the cache
contents: after classifying `"ceo"` (which populates the cache), a call
with `"CEO"` returns the cached record — whose `input` field is `"ceo"` —
while the same call against an empty cache returns a record with `input`
`"CEO"`. -/
theorem C4_counterexample :
    (classify_one (classify_one [] re_search "ceo" []).2 re_search "CEO" []).1 ≠
      (classify_one [] re_search "CEO" []).1 := by
  intro h
  have h2 := congrArg Rec.input h
  revert h2
  decide

/-- C2: exclude-veto dominance.  For every title, every matcher, every cache
state and every caller exclude pattern that matches the normalized title,
`classify_one` returns the not-ICP record with
`why = (excluded_by, external_excludes)` — the fast path is disabled when
caller excludes are present, and the exclude stage precedes every positive
stage. -/
theorem C2_exclude_veto (c : Cache) (M : Matcher) (t p : String)
    (h : M p (norm t) = true) :
    (classify_one c M t [p]).1 =
      create_result t false "" "" "" "" [("excluded_by", WhyV.s "external_excludes")] := by
  simp [classify_one, classify_one_internal, classify_after_fast, any_match, h]

/-- Witness for `C2_exclude_veto` at a concrete input: excluding
`"founder"`-titled leads vetoes `"Founder & CEO"`. -/
theorem C2_exclude_veto_witness :
    (classify_one [] re_search "Founder & CEO" ["\\bfounder(s)?\\b"]).1 =
      create_result "Founder & CEO" false "" "" "" ""
        [("excluded_by", WhyV.s "external_excludes")] :=
  C2_exclude_veto [] re_search "Founder & CEO" "\\bfounder(s)?\\b" (by decide)

end ICP
